import Mathlib

/-!
Scheduled-execution co-simulation driver: `examples/cs_clocked.c` with the
constants of `Clocks/config.h`.

A shallow embedding of the clocked partition scheduler:

* `setAndCheckInputClocks`, `checkOutputClocks`, `recordVariables`,
  `cb_intermediateUpdate`, `thr_activateModelPartition`,
  `initializeOutputFiles` and `main` are translated statement by statement from
  `cs_clocked.c`;
* the constants and `ThreadArgs` come from `config.h`.

Conventions of the embedding.

* The global variables and the locals of `main` and of the callback live in one
  record `State`; every function takes a `State` and gives back the new one.
* Everything the program does to the outside (log lines, calls into the FMU,
  thread creation, file output, `Sleep`, thread exit) is appended, in program
  order, to `State.trace`.
* The FMU and the operating system are not part of the sources.  Their answers
  are taken from the records `Collaborator` and `OS`; theorems quantify over
  all of them.
* `fmi3Float64 time` only ever holds `START_TIME + k * FIXED_SOLVER_STEP`, all
  of them integers that a double represents exactly.  `time` is an `Int`, the
  cast `(int)time` is the identity and C's `%` is `Int.tmod` (truncated).
* `fmi3Int32` values are only copied, never computed with, so they are `Int`.
* The activation threads and the callback never assign `time`, `inputClocks`
  or a local of `main`, so the tick loop is embedded on its own.  One
  activation and one invocation of the callback are each embedded as an
  uninterrupted run; the embedding says nothing about interleavings.
* The `while` loop of `main` takes a fuel; `whileLoop_returns` shows that a
  fuel of `stopTime - time` passes is enough for it to return.
-/

namespace CsClocked

/-! ## Types of the FMI headers -/

/-- Modelled from the spec: the status type of `fmi3Functions.h`, which is not
among the sources.  The driver names `fmi3OK`, `fmi3Error` and `fmi3Fatal`;
`fmi3Warning` and `fmi3Discard` are the remaining non-success answers a
collaborator call may give. -/
inductive fmi3Status where
  | fmi3OK
  | fmi3Warning
  | fmi3Discard
  | fmi3Error
  | fmi3Fatal
  deriving DecidableEq

open fmi3Status

/-- Modelled from the spec: the clock state type `fmi3Clock` of the FMI
headers, which are not among the sources.  A clock is Active or Inactive; the
driver tests a clock for truth and compares it with `fmi3ClockActive`. -/
abbrev fmi3Clock := Bool

abbrev fmi3ClockActive : fmi3Clock := true

abbrev fmi3ClockInactive : fmi3Clock := false

/-! ## `config.h` -/

abbrev N_INPUT_CLOCKS : Nat := 3

abbrev InClock_1 : Fin N_INPUT_CLOCKS := ⟨0, by decide⟩

abbrev InClock_2 : Fin N_INPUT_CLOCKS := ⟨1, by decide⟩

abbrev InClock_3 : Fin N_INPUT_CLOCKS := ⟨2, by decide⟩

abbrev N_OUTPUT_CLOCKS : Nat := 2

abbrev OutClock_1 : Fin N_OUTPUT_CLOCKS := ⟨0, by decide⟩

abbrev OutClock_2 : Fin N_OUTPUT_CLOCKS := ⟨1, by decide⟩

def START_TIME : Int := 0

def STOP_TIME : Int := 10

def FIXED_SOLVER_STEP : Int := 1

abbrev vr_InClock_1 : Nat := 1001

abbrev vr_InClock_2 : Nat := 1002

abbrev vr_InClock_3 : Nat := 1003

abbrev vr_OutClock_1 : Nat := 1004

abbrev vr_OutClock_2 : Nat := 1005

abbrev vr_InClock_1_Ticks : Nat := 2001

abbrev vr_InClock_2_Ticks : Nat := 2002

abbrev vr_InClock_3_Ticks : Nat := 2003

abbrev vr_total_InClock_Ticks : Nat := 2004

abbrev vr_result_2 : Nat := 2005

abbrev vr_input_2 : Nat := 2006

abbrev vr_output_3 : Nat := 2007

/-- The places a `ThreadArgs.retval` pointer can point to: nowhere (the
zero-initialised `iu_arguments`), `&returnval[i]` of `main`, or `&returnval`
of `cb_intermediateUpdate`. -/
inductive RetvalPtr where
  | null
  | returnval (i : Fin N_INPUT_CLOCKS)
  | cb_returnval
  deriving DecidableEq

/-- The record `ThreadArgs` of `config.h`.  There is one FMU instance, so the
field `comp` carries no information and is left out. -/
structure ThreadArgs where
  clockRef : Nat
  retval : RetvalPtr
  activationTime : Int
  deriving DecidableEq

/-! ## The trace -/

/-- The `logEvent` calls of `cs_clocked.c`, one constructor per format string,
with the arguments that are formatted. -/
inductive LogMsg where
  /-- "Running Scheduled Execution Co-Simulation example..." -/
  | running
  /-- "Allocating the global lock failed: %ld" -/
  | allocFailed
  /-- "GetCurrentProcessorNumber() => %lx (Mask = %lx)" -/
  | processor (processorNumber processorMask : Nat)
  /-- "==========> time =%g" -/
  | tickTime (time : Int)
  /-- "starting thread for clock %s (vr=%d)" -/
  | startingThread (name : String) (vr : Nat)
  /-- "Could not create thread in main loop" -/
  | noThreadInMainLoop
  /-- "... finished Scheduled Execution Co-Simulation example." -/
  | finished
  /-- "%g,%3d,%3d" -/
  | record (time : Int) (a b : Int)
  /-- "No clock active in intermediateUpdate callback" -/
  | noClockActive
  /-- "cb_intermediateUpdate starting thread for input clock 3 (vr=%d)" -/
  | cbStartingThread (vr : Nat)
  /-- "Could not create thread in cb_intermediateUpdate" -/
  | noThreadInCallback
  /-- "Detected ticking of output clock 2 (time=%g)" -/
  | outputClock2 (time : Int)
  /-- "setAndCheckInputClocks: time=%d, inputClocks[InClock_1] = %d inputClocks[InClock_2] = %d" -/
  | inputClockStates (time : Int) (c1 c2 : fmi3Clock)
  /-- "activateModelPartition calling fmi3ActivateModelPartition (%d)" -/
  | activating (clockRef : Nat)
  deriving DecidableEq

/-- What the driver does to the outside world. -/
inductive Event where
  | logEvent (msg : LogMsg)
  /-- A call of `_beginthreadex` on `thr_activateModelPartition` with these
  arguments; `ok` tells whether a handle came back. -/
  | beginthreadex (args : ThreadArgs) (ok : Bool)
  | SetThreadAffinityMask (mask : Nat)
  | SetThreadPriority (prio : Int)
  | Sleep (ms : Nat)
  | fmi3GetClock (vrs : List Nat) (res : fmi3Status) (clocks : List fmi3Clock)
  | fmi3SetInt32 (vrs : List Nat) (values : List Int) (res : fmi3Status)
  | fmi3ActivateModelPartition (clockRef : Nat) (activationTime : Int) (res : fmi3Status)
  | fmi3GetInt32 (vrs : List Nat) (res : fmi3Status) (values : List Int)
  /-- A row written by `fprintf` into `outputFile[part]`. -/
  | fprintf (part : Fin N_INPUT_CLOCKS) (time : Int) (a b : Int)
  /-- The call `_endthreadex(retval)` that ends an activation thread. -/
  | endthreadex (retval : fmi3Status)
  | fmi3SetupExperiment (res : fmi3Status)
  | fmi3EnterInitializationMode (res : fmi3Status)
  | fmi3Terminate (res : fmi3Status)
  | fmi3FreeInstance
  | GlobalFree
  | fclose (part : Fin N_INPUT_CLOCKS)
  | fopen (part : Fin N_INPUT_CLOCKS) (ok : Bool)
  /-- The text `puts` or `fputs` writes: the error line on standard output
  (`part = none`) or the header of an output file. -/
  | fputs (part : Option (Fin N_INPUT_CLOCKS)) (text : String)
  deriving DecidableEq

/-! ## The collaborators -/

/-- The answers of the FMU (the simulated entity).  Each field is the answer
to the call of the same name, as a function of the arguments the driver
passes.  `fmi3GetClock` and `fmi3GetInt32` get the current content of the
buffer and give back the values they store into it. -/
structure Collaborator where
  /-- Whether `fmi3Instantiate` gives a non-NULL instance. -/
  fmi3Instantiate : Bool
  fmi3SetupExperiment : fmi3Status
  fmi3EnterInitializationMode : fmi3Status
  fmi3GetClock : List Nat → List fmi3Clock → fmi3Status × List fmi3Clock
  fmi3SetInt32 : List Nat → List Int → fmi3Status
  fmi3ActivateModelPartition : Nat → Int → fmi3Status
  fmi3GetInt32 : List Nat → List Int → fmi3Status × List Int
  fmi3Terminate : fmi3Status

/-- The answers of the operating system. -/
structure OS where
  /-- Whether `GlobalAlloc` gives a non-NULL handle. -/
  GlobalAlloc : Bool
  /-- Whether `fopen` of the output file of partition `part` succeeds. -/
  fopen : Fin N_INPUT_CLOCKS → Bool
  GetCurrentProcessorNumber : Nat
  /-- Whether `_beginthreadex` gives a non-NULL handle for these arguments. -/
  beginthreadex : ThreadArgs → Bool

/-! ## Program state -/

/-- The variables of `cs_clocked.c`. -/
structure State where
  /-- `fmi3Float64 time`, the current simulation time. -/
  time : Int
  processorMask : Nat
  iu_arguments : ThreadArgs
  inputs_c2 : Fin 1 → Int
  outputs_c1 : Fin 3 → Int
  outputs_c2 : Fin 2 → Int
  outputs_c3 : Fin 2 → Int
  inputClocks : Fin N_INPUT_CLOCKS → fmi3Clock
  outputClocks : Fin N_OUTPUT_CLOCKS → fmi3Clock
  /-- Local `status` of `main`. -/
  status : fmi3Status
  /-- Local `terminateStatus` of `main`. -/
  terminateStatus : fmi3Status
  /-- Local `returnval[N_INPUT_CLOCKS]` of `main`; `none` is "never written". -/
  returnval : Fin N_INPUT_CLOCKS → Option fmi3Status
  /-- Local `thrArguments[N_INPUT_CLOCKS]` of `main`; `none` is "never written". -/
  thrArguments : Fin N_INPUT_CLOCKS → Option ThreadArgs
  /-- Local `curThrHandle` of `main`. -/
  curThrHandle : Nat
  /-- Local `returnval` of `cb_intermediateUpdate`; `none` is "never written". -/
  cb_returnval : Option fmi3Status
  trace : List Event

/-- `const fmi3Float64 stopTime = STOP_TIME`. -/
def stopTime : Int := STOP_TIME

/-- `fmi3Float64 stepSize = FIXED_SOLVER_STEP`; the program never assigns it. -/
def stepSize : Int := FIXED_SOLVER_STEP

def vrInputs_c2 : List Nat := [vr_input_2]

def vrOutputs_c1 : List Nat := [vr_InClock_1_Ticks, vr_total_InClock_Ticks]

def vrOutputs_c2 : List Nat := [vr_InClock_2_Ticks, vr_result_2]

def vrOutputs_c3 : List Nat := [vr_InClock_3_Ticks, vr_output_3]

def vrInputClocks : Fin N_INPUT_CLOCKS → Nat :=
  fun i => if i = InClock_1 then vr_InClock_1 else if i = InClock_2 then vr_InClock_2 else vr_InClock_3

/-- `fmi3Int32 inputClockPrio[N_INPUT_CLOCKS] = { 2, 1, -1 }`. -/
def inputClockPrio : Fin N_INPUT_CLOCKS → Int :=
  fun i => if i = InClock_1 then 2 else if i = InClock_2 then 1 else -1

def vrOutputClocks : List Nat := [vr_OutClock_1, vr_OutClock_2]

/-- The values of the variables at program start (the initialisers of the
globals; the locals of `main` and of the callback are not yet written). -/
def State.init : State where
  time := START_TIME
  processorMask := 0
  iu_arguments := ⟨0, RetvalPtr.null, 0⟩
  inputs_c2 := fun _ => 0
  outputs_c1 := fun _ => 0
  outputs_c2 := fun _ => 0
  outputs_c3 := fun _ => 0
  inputClocks := fun _ => fmi3ClockInactive
  outputClocks := fun _ => fmi3ClockInactive
  status := fmi3OK
  terminateStatus := fmi3OK
  returnval := fun _ => none
  thrArguments := fun _ => none
  curThrHandle := 0
  cb_returnval := none
  trace := []

/-- Append one event to the trace. -/
def State.emit (st : State) (e : Event) : State :=
  { st with trace := st.trace ++ [e] }

/-- The content of the cell a `retval` pointer points to. -/
def State.deref (st : State) : RetvalPtr → Option fmi3Status
  | RetvalPtr.null => none
  | RetvalPtr.returnval i => st.returnval i
  | RetvalPtr.cb_returnval => st.cb_returnval

/-- The array after a collaborator stored `vals` into its first `k` entries
(an entry for which `vals` has no value keeps its content). -/
def store {n : Nat} (old : Fin n → α) (k : Nat) (vals : List α) : Fin n → α :=
  fun i => if i.val < k then vals.getD i.val (old i) else old i

/-! ## `setAndCheckInputClocks` and `checkOutputClocks` -/

/-- `static bool setAndCheckInputClocks(fmi3Instance s, fmi3Float64 time)`. -/
def setAndCheckInputClocks (time : Int) (st : State) : Bool × State :=
  -- InClock_1: active every second
  let st :=
    if Int.tmod time 1 = 0 then
      { st with inputClocks := Function.update st.inputClocks InClock_1 fmi3ClockActive }
    else
      { st with inputClocks := Function.update st.inputClocks InClock_1 fmi3ClockInactive }
  -- InClock_2: active at 0, 1, 8 and 9
  let st :=
    if Int.tmod time 8 = 0 ∨ Int.tmod (time - 1) 8 = 0 then
      { st with inputClocks := Function.update st.inputClocks InClock_2 fmi3ClockActive }
    else
      { st with inputClocks := Function.update st.inputClocks InClock_2 fmi3ClockInactive }
  let retval : Bool :=
    st.inputClocks InClock_1 == fmi3ClockActive || st.inputClocks InClock_2 == fmi3ClockActive
  if retval then
    (retval, st.emit (Event.logEvent
      (LogMsg.inputClockStates time (st.inputClocks InClock_1) (st.inputClocks InClock_2))))
  else
    (retval, st)

/-- `static bool checkOutputClocks(fmi3Instance s)`. -/
def checkOutputClocks (fmu : Collaborator) (st : State) : Bool × State :=
  let st := { st with outputClocks := fun _ => fmi3ClockInactive }
  let r := fmu.fmi3GetClock vrOutputClocks [st.outputClocks OutClock_1, st.outputClocks OutClock_2]
  let st := { st with outputClocks := store st.outputClocks N_OUTPUT_CLOCKS r.2 }
  let st := st.emit (Event.fmi3GetClock vrOutputClocks r.1 r.2)
  (st.outputClocks OutClock_1 || st.outputClocks OutClock_2, st)

/-! ## `recordVariables` -/

/-- `fmi3Status recordVariables(fmi3Instance s, fmi3Float64 time, int modelPart)`. -/
def recordVariables (time : Int) (modelPart : Nat) (st : State) : fmi3Status × State :=
  if modelPart = vr_InClock_1 then
    let st := st.emit (Event.fprintf InClock_1 time (st.outputs_c1 0) (st.outputs_c1 1))
    (fmi3OK, st.emit (Event.logEvent (LogMsg.record time (st.outputs_c1 0) (st.outputs_c1 1))))
  else if modelPart = vr_InClock_2 then
    let st := st.emit (Event.fprintf InClock_2 time (st.outputs_c2 0) (st.outputs_c2 1))
    (fmi3OK, st.emit (Event.logEvent (LogMsg.record time (st.outputs_c2 0) (st.outputs_c2 1))))
  else if modelPart = vr_InClock_3 then
    let st := st.emit (Event.fprintf InClock_3 time (st.outputs_c3 0) (st.outputs_c3 1))
    (fmi3OK, st.emit (Event.logEvent (LogMsg.record time (st.outputs_c3 0) (st.outputs_c3 1))))
  else
    (fmi3OK, st)

/-! ## `thr_activateModelPartition` -/

/-- `unsigned __stdcall thr_activateModelPartition(void *args)`: the body of an
activation thread.  `TA` is the record `args` points to.  Every path leaves the
`switch` by `break` and reaches `_endthreadex(retval)`. -/
def thr_activateModelPartition (fmu : Collaborator) (TA : ThreadArgs) (st : State) : State :=
  let retval := fmi3OK
  if TA.clockRef = vr_InClock_1 then
    let st := st.emit (Event.logEvent (LogMsg.activating TA.clockRef))
    -- No variables to set for this partition
    let retval := fmu.fmi3ActivateModelPartition TA.clockRef TA.activationTime
    let st := st.emit (Event.fmi3ActivateModelPartition TA.clockRef TA.activationTime retval)
    if retval ≠ fmi3OK then
      st.emit (Event.endthreadex retval)
    else
      let r := fmu.fmi3GetInt32 vrOutputs_c1 [st.outputs_c1 0, st.outputs_c1 1]
      let st := { st with outputs_c1 := store st.outputs_c1 2 r.2 }
      let st := st.emit (Event.fmi3GetInt32 vrOutputs_c1 r.1 r.2)
      let retval := r.1
      let st := (recordVariables TA.activationTime vr_InClock_1 st).2
      st.emit (Event.endthreadex retval)
  else if TA.clockRef = vr_InClock_2 then
    let st := st.emit (Event.logEvent (LogMsg.activating TA.clockRef))
    let retval := fmu.fmi3SetInt32 vrInputs_c2 [st.inputs_c2 0]
    let st := st.emit (Event.fmi3SetInt32 vrInputs_c2 [st.inputs_c2 0] retval)
    -- Reset the source for the input again, so it is counted just once
    let st := { st with inputs_c2 := Function.update st.inputs_c2 0 0 }
    if retval ≠ fmi3OK then
      st.emit (Event.endthreadex retval)
    else
      let retval := fmu.fmi3ActivateModelPartition TA.clockRef TA.activationTime
      let st := st.emit (Event.fmi3ActivateModelPartition TA.clockRef TA.activationTime retval)
      if retval ≠ fmi3OK then
        st.emit (Event.endthreadex retval)
      else
        let r := fmu.fmi3GetInt32 vrOutputs_c2 [st.outputs_c2 0, st.outputs_c2 1]
        let st := { st with outputs_c2 := store st.outputs_c2 2 r.2 }
        let st := st.emit (Event.fmi3GetInt32 vrOutputs_c2 r.1 r.2)
        let retval := r.1
        let st := (recordVariables TA.activationTime vr_InClock_2 st).2
        st.emit (Event.endthreadex retval)
  else if TA.clockRef = vr_InClock_3 then
    let st := st.emit (Event.logEvent (LogMsg.activating TA.clockRef))
    -- No variables to set for this partition
    if retval ≠ fmi3OK then
      st.emit (Event.endthreadex retval)
    else
      let retval := fmu.fmi3ActivateModelPartition TA.clockRef TA.activationTime
      let st := st.emit (Event.fmi3ActivateModelPartition TA.clockRef TA.activationTime retval)
      if retval ≠ fmi3OK then
        st.emit (Event.endthreadex retval)
      else
        let r := fmu.fmi3GetInt32 vrOutputs_c3 [st.outputs_c3 0, st.outputs_c3 1]
        let st := { st with outputs_c3 := store st.outputs_c3 2 r.2 }
        let st := st.emit (Event.fmi3GetInt32 vrOutputs_c3 r.1 r.2)
        let retval := r.1
        -- Use the output of model part 3 as input for model part 2
        let st := { st with inputs_c2 := Function.update st.inputs_c2 0 (st.outputs_c3 1) }
        let st := (recordVariables TA.activationTime vr_InClock_3 st).2
        st.emit (Event.endthreadex retval)
  else
    let retval := fmi3Error
    st.emit (Event.endthreadex retval)

/-- `fmi3Status cb_intermediateUpdate(fmi3Instance s, fmi3IntermediateUpdateInfo*)`;
`clocksTicked` is `intermediateUpdateInfo->clocksTicked`. -/
def cb_intermediateUpdate (os : OS) (fmu : Collaborator) (clocksTicked : Bool) (st : State) :
    fmi3Status × State :=
  -- `!clocksTicked || !checkOutputClocks(s)`: the right operand runs only when
  -- the left one is false
  if !clocksTicked then
    (fmi3OK, st.emit (Event.logEvent LogMsg.noClockActive))
  else
    let r := checkOutputClocks fmu st
    let st := r.2
    if !r.1 then
      (fmi3OK, st.emit (Event.logEvent LogMsg.noClockActive))
    else
      -- input clock 3 depends on output clock 1
      let st :=
        if st.outputClocks OutClock_1 then
          let st := st.emit (Event.logEvent (LogMsg.cbStartingThread vr_InClock_3))
          let st := { st with iu_arguments := ⟨vr_InClock_3, RetvalPtr.cb_returnval, st.time⟩ }
          if os.beginthreadex st.iu_arguments then
            let st := st.emit (Event.beginthreadex st.iu_arguments true)
            let st := st.emit (Event.SetThreadAffinityMask st.processorMask)
            st.emit (Event.SetThreadPriority (inputClockPrio InClock_3))
          else
            let st := st.emit (Event.beginthreadex st.iu_arguments false)
            st.emit (Event.logEvent LogMsg.noThreadInCallback)
        else st
      let st :=
        if st.outputClocks OutClock_2 then
          st.emit (Event.logEvent (LogMsg.outputClock2 st.time))
        else st
      (fmi3OK, st)

/-! ## `main` -/

/-- How a piece of `main` is left: by falling through to the next statement or
by `goto out`. -/
inductive Ctl where
  | next
  | out
  deriving DecidableEq

/-- The body of `for (int i = 0; i < N_INPUT_CLOCKS; i++)` in `main`. -/
def forBody (os : OS) (i : Fin N_INPUT_CLOCKS) (st : State) : Ctl × State :=
  if st.inputClocks i = fmi3ClockActive then
    let st := st.emit (Event.logEvent
      (LogMsg.startingThread (if i = InClock_1 then "InClock_1" else "InClock_2") (vrInputClocks i)))
    let args : ThreadArgs := ⟨vrInputClocks i, RetvalPtr.returnval i, st.time⟩
    let st := { st with thrArguments := Function.update st.thrArguments i (some args) }
    if os.beginthreadex args then
      let st := st.emit (Event.beginthreadex args true)
      let st := st.emit (Event.SetThreadAffinityMask st.processorMask)
      let st := st.emit (Event.SetThreadPriority (inputClockPrio i))
      let st := { st with curThrHandle := st.curThrHandle + 1 }
      (Ctl.next, { st with inputClocks := Function.update st.inputClocks i fmi3ClockInactive })
    else
      let st := st.emit (Event.beginthreadex args false)
      let st := st.emit (Event.logEvent LogMsg.noThreadInMainLoop)
      (Ctl.out, { st with status := fmi3Fatal })
  else
    (Ctl.next, st)

/-- The `for` loop of `main` over the clock indices still to visit. -/
def forLoop (os : OS) : List (Fin N_INPUT_CLOCKS) → State → Ctl × State
  | [], st => (Ctl.next, st)
  | i :: rest, st =>
    match forBody os i st with
    | (Ctl.out, st) => (Ctl.out, st)
    | (Ctl.next, st) => forLoop os rest st

/-- The indices `i = 0, 1, 2` the `for` loop runs through. -/
def clockIndices : List (Fin N_INPUT_CLOCKS) := [InClock_1, InClock_2, InClock_3]

/-- One pass through the body of `while (time < stopTime)` in `main`. -/
def whileBody (os : OS) (st : State) : Ctl × State :=
  let r := setAndCheckInputClocks st.time st
  let st := r.2
  let c : Ctl × State :=
    if r.1 then
      let st := st.emit (Event.logEvent (LogMsg.tickTime st.time))
      let st := { st with curThrHandle := 0 }
      forLoop os clockIndices st
    else
      (Ctl.next, st)
  match c with
  | (Ctl.out, st) => (Ctl.out, st)
  | (Ctl.next, st) =>
    let st := st.emit (Event.Sleep 950)
    (Ctl.next, { st with time := st.time + stepSize })

/-- `while (time < stopTime)` of `main`, run for at most `fuel` passes; `none`
when the fuel is used up before the loop is left. -/
def whileLoop (os : OS) : Nat → State → Option (Ctl × State)
  | 0, st => if st.time < stopTime then none else some (Ctl.next, st)
  | fuel + 1, st =>
    if st.time < stopTime then
      match whileBody os st with
      | (Ctl.out, st) => some (Ctl.out, st)
      | (Ctl.next, st) => whileLoop os fuel st
    else
      some (Ctl.next, st)

/-- `fmi3Status initializeOutputFiles()`. -/
def initializeOutputFiles (os : OS) : List (Fin N_INPUT_CLOCKS) → State → fmi3Status × State
  | [], st =>
    let st := st.emit (Event.fputs (some InClock_1) "time,InClock_1_Ticks,total_InClock_Ticks\n")
    let st := st.emit (Event.fputs (some InClock_2) "time,InClock_2_Ticks,result\n")
    let st := st.emit (Event.fputs (some InClock_3) "time,InClock_3_Ticks,output_3\n")
    (fmi3OK, st)
  | part :: rest, st =>
    let st := st.emit (Event.fopen part (os.fopen part))
    if !os.fopen part then
      (fmi3Error, st.emit (Event.fputs none "Failed to open output file."))
    else
      initializeOutputFiles os rest st

abbrev EXIT_SUCCESS : Nat := 0

abbrev EXIT_FAILURE : Nat := 1

/-- The part of `main` from the label `out:` to `return`; `s` tells whether the
instance is non-NULL. -/
def mainOut (fmu : Collaborator) (s : Bool) (st : State) : Nat × State :=
  let st :=
    if s && st.status ≠ fmi3Error && st.status ≠ fmi3Fatal then
      let st := { st with terminateStatus := fmu.fmi3Terminate }
      st.emit (Event.fmi3Terminate fmu.fmi3Terminate)
    else st
  let st := st.emit Event.GlobalFree
  let st := st.emit (Event.fclose InClock_1)
  let st := st.emit (Event.fclose InClock_2)
  let st := st.emit (Event.fclose InClock_3)
  let st := st.emit (Event.logEvent LogMsg.finished)
  let st :=
    if s && st.status ≠ fmi3Fatal && st.terminateStatus ≠ fmi3Fatal then
      st.emit Event.fmi3FreeInstance
    else st
  (if st.status = fmi3OK then EXIT_SUCCESS else EXIT_FAILURE, st)

/-- `int main(int argc, char* argv[])`, with at most `fuel` passes through the
`while` loop; the result is the exit code and the final state. -/
def main (os : OS) (fmu : Collaborator) (fuel : Nat) : Option (Nat × State) :=
  let st := State.init
  if !fmu.fmi3Instantiate then
    some (mainOut fmu false { st with status := fmi3Error })
  else
    let st := st.emit (Event.logEvent LogMsg.running)
    if !os.GlobalAlloc then
      let st := { st with status := fmi3Error }
      some (mainOut fmu true (st.emit (Event.logEvent LogMsg.allocFailed)))
    else
      let r := initializeOutputFiles os clockIndices st
      let st := { r.2 with status := r.1 }
      if st.status ≠ fmi3OK then some (mainOut fmu true st)
      else
        let st := { st with status := fmu.fmi3SetupExperiment }
        let st := st.emit (Event.fmi3SetupExperiment st.status)
        if st.status ≠ fmi3OK then some (mainOut fmu true st)
        else
          let st := { st with status := fmu.fmi3EnterInitializationMode }
          let st := st.emit (Event.fmi3EnterInitializationMode st.status)
          if st.status ≠ fmi3OK then some (mainOut fmu true st)
          else
            -- update clocks
            let g := fmu.fmi3GetClock vrOutputClocks
              [st.outputClocks OutClock_1, st.outputClocks OutClock_2]
            let st := { st with outputClocks := store st.outputClocks N_OUTPUT_CLOCKS g.2,
                                status := g.1 }
            let st := st.emit (Event.fmi3GetClock vrOutputClocks g.1 g.2)
            if st.status ≠ fmi3OK then some (mainOut fmu true st)
            else
              let st := { st with processorMask := 1 <<< os.GetCurrentProcessorNumber }
              let st := st.emit (Event.logEvent
                (LogMsg.processor os.GetCurrentProcessorNumber st.processorMask))
              (whileLoop os fuel st).map (fun r => mainOut fmu true r.2)

/-! ## Reading a trace -/

/-- The events a run from `st` to `st'` appended to the trace. -/
def emitted (st st' : State) : List Event :=
  st'.trace.drop st.trace.length

/-- The request of a successful thread creation. -/
def dispatchOf : Event → Option ThreadArgs
  | Event.beginthreadex args true => some args
  | _ => none

/-- The activation requests for which a thread was started, in order. -/
def dispatched (tr : List Event) : List ThreadArgs :=
  tr.filterMap dispatchOf

/-- The request and the outcome of a call of `_beginthreadex`. -/
def creationOf : Event → Option (ThreadArgs × Bool)
  | Event.beginthreadex args ok => some (args, ok)
  | _ => none

/-- The calls of `_beginthreadex`, successful or not, in order. -/
def threadCreations (tr : List Event) : List (ThreadArgs × Bool) :=
  tr.filterMap creationOf

def priorityOf : Event → Option Int
  | Event.SetThreadPriority prio => some prio
  | _ => none

/-- The priorities handed to `SetThreadPriority`, in order. -/
def priorities (tr : List Event) : List Int :=
  tr.filterMap priorityOf

def isSleep : Event → Bool
  | Event.Sleep _ => true
  | _ => false

/-- The number of `Sleep` calls: one for each completed pass of the tick loop. -/
def sleeps (tr : List Event) : Nat :=
  (tr.filter isSleep).length

def tickTimeOf : Event → Option Int
  | Event.logEvent (LogMsg.tickTime t) => some t
  | _ => none

/-- The times of the ticks for which `main` logged "==========> time =". -/
def tickTimes (tr : List Event) : List Int :=
  tr.filterMap tickTimeOf

/-- The status a collaborator call came back with. -/
def callStatus : Event → Option fmi3Status
  | Event.fmi3SetInt32 _ _ res => some res
  | Event.fmi3ActivateModelPartition _ _ res => some res
  | Event.fmi3GetInt32 _ res _ => some res
  | Event.fmi3GetClock _ res _ => some res
  | _ => none

def exitOf : Event → Option fmi3Status
  | Event.endthreadex r => some r
  | _ => none

/-- The statuses handed to `_endthreadex`, in order. -/
def threadExits (tr : List Event) : List fmi3Status :=
  tr.filterMap exitOf

/-- Whether the event records output values (a row of an output file or the
log line with the same values). -/
def isRecord : Event → Bool
  | Event.fprintf _ _ _ _ => true
  | Event.logEvent (LogMsg.record _ _ _) => true
  | _ => false

/-- The state of InClock_2 that `setAndCheckInputClocks` computes for `time`. -/
def inClock2At (time : Int) : fmi3Clock :=
  decide (Int.tmod time 8 = 0 ∨ Int.tmod (time - 1) 8 = 0)

/-- The request `main` builds for input clock `i` at the current time. -/
def requestFor (st : State) (i : Fin N_INPUT_CLOCKS) : ThreadArgs :=
  ⟨vrInputClocks i, RetvalPtr.returnval i, st.time⟩

/-- The events of one pass of the `for` body that starts a thread for clock `i`. -/
def startEvents (st : State) (i : Fin N_INPUT_CLOCKS) : List Event :=
  [Event.logEvent
      (LogMsg.startingThread (if i = InClock_1 then "InClock_1" else "InClock_2") (vrInputClocks i)),
    Event.beginthreadex ⟨vrInputClocks i, RetvalPtr.returnval i, st.time⟩ true,
    Event.SetThreadAffinityMask st.processorMask,
    Event.SetThreadPriority (inputClockPrio i)]

/-- The events of one pass of the `for` body in which no thread could be started
for clock `i`. -/
def failEvents (st : State) (i : Fin N_INPUT_CLOCKS) : List Event :=
  [Event.logEvent
      (LogMsg.startingThread (if i = InClock_1 then "InClock_1" else "InClock_2") (vrInputClocks i)),
    Event.beginthreadex ⟨vrInputClocks i, RetvalPtr.returnval i, st.time⟩ false,
    Event.logEvent LogMsg.noThreadInMainLoop]

/-- The events of the `for` body for clock `i` when thread creation succeeds:
nothing for an Inactive clock. -/
def forEvents (st : State) (i : Fin N_INPUT_CLOCKS) : List Event :=
  if st.inputClocks i = fmi3ClockActive then startEvents st i else []

/-- The events of one pass of the tick loop in which every thread creation
succeeds. -/
def tickEvents (st : State) : List Event :=
  [Event.logEvent (LogMsg.inputClockStates st.time fmi3ClockActive (inClock2At st.time)),
    Event.logEvent (LogMsg.tickTime st.time)] ++
  (startEvents st InClock_1 ++
    ((if inClock2At st.time = fmi3ClockActive then startEvents st InClock_2 else []) ++
      (forEvents st InClock_3 ++ [Event.Sleep 950])))

/-- The status of the last collaborator call in a trace, if there is one. -/
def lastCallStatus (tr : List Event) : Option fmi3Status :=
  (tr.filterMap callStatus).getLast?

/-- Whether the activation thread knows the clock reference (a `case` of the
`switch` in `thr_activateModelPartition`). -/
def knownClockRef (clockRef : Nat) : Bool :=
  clockRef = vr_InClock_1 ∨ clockRef = vr_InClock_2 ∨ clockRef = vr_InClock_3

/-- A collaborator that answers every call with `fmi3OK`, reports OutClock_1 as
ticking and gives the values 5 and 42 on every pull. -/
def okFMU : Collaborator where
  fmi3Instantiate := true
  fmi3SetupExperiment := fmi3OK
  fmi3EnterInitializationMode := fmi3OK
  fmi3GetClock := fun _ _ => (fmi3OK, [fmi3ClockActive, fmi3ClockInactive])
  fmi3SetInt32 := fun _ _ => fmi3OK
  fmi3ActivateModelPartition := fun _ _ => fmi3OK
  fmi3GetInt32 := fun _ _ => (fmi3OK, [5, 42])
  fmi3Terminate := fmi3OK

/-- A collaborator like `okFMU` whose partition activation fails. -/
def failingFMU : Collaborator :=
  { okFMU with fmi3ActivateModelPartition := fun _ _ => fmi3Error }

/-- The output clock states `checkOutputClocks` ends up with: what the
collaborator stores over the cleared array. -/
def reportedClocks (fmu : Collaborator) : Fin N_OUTPUT_CLOCKS → fmi3Clock :=
  store (fun _ => fmi3ClockInactive) N_OUTPUT_CLOCKS
    (fmu.fmi3GetClock vrOutputClocks [fmi3ClockInactive, fmi3ClockInactive]).2

/-- The request `cb_intermediateUpdate` builds for InClock_3. -/
def cbRequest (st : State) : ThreadArgs :=
  ⟨vr_InClock_3, RetvalPtr.cb_returnval, st.time⟩

/-- An operating system on which every call succeeds. -/
def okOS : OS where
  GlobalAlloc := true
  fopen := fun _ => true
  GetCurrentProcessorNumber := 0
  beginthreadex := fun _ => true

/-- An operating system that cannot start a thread for InClock_3 and succeeds
in everything else. -/
def noThread3OS : OS :=
  { okOS with beginthreadex := fun a => decide (a.clockRef ≠ vr_InClock_3) }

/-- An operating system that cannot start any thread. -/
def noThreadOS : OS :=
  { okOS with beginthreadex := fun _ => false }

/-- The events of the shutdown part of `main` after a fatal error. -/
def fatalShutdownEvents : List Event :=
  [Event.GlobalFree, Event.fclose InClock_1, Event.fclose InClock_2, Event.fclose InClock_3,
    Event.logEvent LogMsg.finished]

/-! ## Facts about `setAndCheckInputClocks` -/

theorem setAndCheckInputClocks_eq (time : Int) (st : State) :
    setAndCheckInputClocks time st =
      (true,
        { st with
          inputClocks :=
            Function.update (Function.update st.inputClocks InClock_1 fmi3ClockActive)
              InClock_2 (inClock2At time)
          trace := st.trace ++
            [Event.logEvent (LogMsg.inputClockStates time fmi3ClockActive (inClock2At time))] }) := by
  unfold setAndCheckInputClocks inClock2At
  by_cases h : Int.tmod time 8 = 0 ∨ Int.tmod (time - 1) 8 = 0
  · simp [h, State.emit, Int.tmod_one]
  · simp [h, State.emit, Int.tmod_one]

theorem emitted_of_trace {st st' : State} {em : List Event}
    (h : st'.trace = st.trace ++ em) : emitted st st' = em := by
  simp [emitted, h]

/-- C1: at every tick time `t` of the run (`START_TIME ≤ t < STOP_TIME`, that
is 0, 1, ..., 9) and from every prior state, `setAndCheckInputClocks t` leaves
InClock_2 Active exactly when `t` is 0, 1, 8 or 9, and Inactive at every other
tick. -/
theorem C1_InClock_2_active_exactly_at_0_1_8_9 (t : Int) (st : State)
    (h0 : START_TIME ≤ t) (h1 : t < STOP_TIME) :
    ((setAndCheckInputClocks t st).2.inputClocks InClock_2 = fmi3ClockActive ↔
        (t = 0 ∨ t = 1 ∨ t = 8 ∨ t = 9)) ∧
      (¬ (t = 0 ∨ t = 1 ∨ t = 8 ∨ t = 9) →
        (setAndCheckInputClocks t st).2.inputClocks InClock_2 = fmi3ClockInactive) := by
  rw [setAndCheckInputClocks_eq]
  unfold START_TIME at h0
  unfold STOP_TIME at h1
  simp only [Function.update_same, inClock2At]
  interval_cases t <;> decide

theorem C1_witness :
    ((setAndCheckInputClocks 8 State.init).2.inputClocks InClock_2 = fmi3ClockActive ↔
        ((8 : Int) = 0 ∨ (8 : Int) = 1 ∨ (8 : Int) = 8 ∨ (8 : Int) = 9)) ∧
      (¬ ((8 : Int) = 0 ∨ (8 : Int) = 1 ∨ (8 : Int) = 8 ∨ (8 : Int) = 9) →
        (setAndCheckInputClocks 8 State.init).2.inputClocks InClock_2 = fmi3ClockInactive) :=
  C1_InClock_2_active_exactly_at_0_1_8_9 8 State.init (by decide) (by decide)

/-! ## Facts about the tick loop of `main` -/

theorem forBody_inactive (os : OS) (i : Fin N_INPUT_CLOCKS) (st : State)
    (h : st.inputClocks i = fmi3ClockInactive) : forBody os i st = (Ctl.next, st) := by
  simp [forBody, h]

theorem forBody_started (os : OS) (i : Fin N_INPUT_CLOCKS) (st : State)
    (h : st.inputClocks i = fmi3ClockActive)
    (hos : os.beginthreadex ⟨vrInputClocks i, RetvalPtr.returnval i, st.time⟩ = true) :
    forBody os i st =
      (Ctl.next,
        { st with
          thrArguments := Function.update st.thrArguments i
            (some ⟨vrInputClocks i, RetvalPtr.returnval i, st.time⟩)
          curThrHandle := st.curThrHandle + 1
          inputClocks := Function.update st.inputClocks i fmi3ClockInactive
          trace := st.trace ++ startEvents st i }) := by
  simp [forBody, h, hos, State.emit, startEvents]

theorem forBody_failed (os : OS) (i : Fin N_INPUT_CLOCKS) (st : State)
    (h : st.inputClocks i = fmi3ClockActive)
    (hos : os.beginthreadex ⟨vrInputClocks i, RetvalPtr.returnval i, st.time⟩ = false) :
    forBody os i st =
      (Ctl.out,
        { st with
          thrArguments := Function.update st.thrArguments i
            (some ⟨vrInputClocks i, RetvalPtr.returnval i, st.time⟩)
          status := fmi3Fatal
          trace := st.trace ++ failEvents st i }) := by
  simp [forBody, h, hos, State.emit, failEvents]


theorem forBody_ok (os : OS) (hos : ∀ a, os.beginthreadex a = true)
    (i : Fin N_INPUT_CLOCKS) (st : State) :
    (forBody os i st).1 = Ctl.next ∧
      (forBody os i st).2.time = st.time ∧
      (forBody os i st).2.processorMask = st.processorMask ∧
      (forBody os i st).2.inputClocks = Function.update st.inputClocks i fmi3ClockInactive ∧
      (forBody os i st).2.trace = st.trace ++ forEvents st i := by
  cases h : st.inputClocks i
  · rw [forBody_inactive os i st h]
    refine ⟨rfl, rfl, rfl, ?_, ?_⟩
    · show st.inputClocks = Function.update st.inputClocks i false
      rw [← h, Function.update_eq_self]
    · simp [forEvents, h]
  · rw [forBody_started os i st h (hos _)]
    refine ⟨rfl, rfl, rfl, rfl, ?_⟩
    simp [forEvents, h]

theorem forLoop_ok (os : OS) (hos : ∀ a, os.beginthreadex a = true) (st : State) :
    (forLoop os clockIndices st).1 = Ctl.next ∧
      (forLoop os clockIndices st).2.time = st.time ∧
      (forLoop os clockIndices st).2.processorMask = st.processorMask ∧
      (forLoop os clockIndices st).2.inputClocks = (fun _ => fmi3ClockInactive) ∧
      (forLoop os clockIndices st).2.trace =
        st.trace ++ (forEvents st InClock_1 ++ (forEvents st InClock_2 ++ forEvents st InClock_3)) := by
  obtain ⟨a1, a2, a3, a4, a5⟩ := forBody_ok os hos InClock_1 st
  obtain ⟨b1, b2, b3, b4, b5⟩ := forBody_ok os hos InClock_2 (forBody os InClock_1 st).2
  obtain ⟨c1, c2, c3, c4, c5⟩ :=
    forBody_ok os hos InClock_3 (forBody os InClock_2 (forBody os InClock_1 st).2).2
  have e1 : forBody os InClock_1 st = (Ctl.next, (forBody os InClock_1 st).2) :=
    Prod.ext a1 rfl
  have e2 : forBody os InClock_2 (forBody os InClock_1 st).2 =
      (Ctl.next, (forBody os InClock_2 (forBody os InClock_1 st).2).2) := Prod.ext b1 rfl
  have e3 : forBody os InClock_3 (forBody os InClock_2 (forBody os InClock_1 st).2).2 =
      (Ctl.next, (forBody os InClock_3 (forBody os InClock_2 (forBody os InClock_1 st).2).2).2) :=
    Prod.ext c1 rfl
  have e : forLoop os clockIndices st =
      (Ctl.next, (forBody os InClock_3 (forBody os InClock_2 (forBody os InClock_1 st).2).2).2) := by
    simp only [clockIndices, forLoop]
    rw [e1]
    simp only
    rw [e2]
    simp only
    rw [e3]
  rw [e]
  refine ⟨rfl, ?_, ?_, ?_, ?_⟩
  · simp only [c2, b2, a2]
  · simp only [c3, b3, a3]
  · simp only [c4, b4, a4]
    funext j
    fin_cases j <;> simp [Function.update]
  · simp only [c5, b5, a5, List.append_assoc]
    have f2 : forEvents (forBody os InClock_1 st).2 InClock_2 = forEvents st InClock_2 := by
      simp only [forEvents, startEvents, a2, a3, a4]
      rw [Function.update_noteq (by decide)]
    have f3 : forEvents (forBody os InClock_2 (forBody os InClock_1 st).2).2 InClock_3 =
        forEvents st InClock_3 := by
      simp only [forEvents, startEvents, a2, a3, a4, b2, b3, b4]
      rw [Function.update_noteq (by decide), Function.update_noteq (by decide)]
    rw [f2, f3]

theorem whileBody_ok (os : OS) (hos : ∀ a, os.beginthreadex a = true) (st : State) :
    ∃ st1, whileBody os st = (Ctl.next, st1) ∧
      st1.time = st.time + stepSize ∧
      st1.processorMask = st.processorMask ∧
      st1.inputClocks = (fun _ => fmi3ClockInactive) ∧
      st1.trace = st.trace ++ tickEvents st := by
  unfold whileBody
  rw [setAndCheckInputClocks_eq]
  simp only [if_true, State.emit]
  generalize hst2 : ({ trace := _, .. } : State) = st2
  obtain ⟨l1, l2, l3, l4, l5⟩ := forLoop_ok os hos st2
  have e : forLoop os clockIndices st2 = (Ctl.next, (forLoop os clockIndices st2).2) :=
    Prod.ext l1 rfl
  rw [e]
  refine ⟨_, rfl, ?_, ?_, ?_, ?_⟩
  · simp only [l2]
    subst hst2
    rfl
  · simp only [l3]
    subst hst2
    rfl
  · simp only [l4]
  · simp only [l5]
    subst hst2
    have h31 : ¬ (InClock_3 = (1 : Fin N_INPUT_CLOCKS)) := by decide
    have h30 : ¬ (InClock_3 = (0 : Fin N_INPUT_CLOCKS)) := by decide
    simp [tickEvents, forEvents, startEvents, Function.update, h31, h30]

theorem sleeps_append (a b : List Event) : sleeps (a ++ b) = sleeps a + sleeps b := by
  simp [sleeps]

theorem tickTimes_append (a b : List Event) : tickTimes (a ++ b) = tickTimes a ++ tickTimes b := by
  simp [tickTimes]

theorem dispatched_append (a b : List Event) :
    dispatched (a ++ b) = dispatched a ++ dispatched b := by
  simp [dispatched]

theorem threadCreations_append (a b : List Event) :
    threadCreations (a ++ b) = threadCreations a ++ threadCreations b := by
  simp [threadCreations]

theorem sleeps_tickEvents (st : State) : sleeps (tickEvents st) = 1 := by
  unfold tickEvents forEvents startEvents
  cases inClock2At st.time <;> cases st.inputClocks InClock_3 <;>
    simp [sleeps, isSleep]

theorem tickTimes_tickEvents (st : State) : tickTimes (tickEvents st) = [st.time] := by
  unfold tickEvents forEvents startEvents
  cases inClock2At st.time <;> cases st.inputClocks InClock_3 <;>
    simp [tickTimes, tickTimeOf]

theorem dispatched_tickEvents (st : State) :
    dispatched (tickEvents st) =
      requestFor st InClock_1 ::
        ((if inClock2At st.time = fmi3ClockActive then [requestFor st InClock_2] else []) ++
          (if st.inputClocks InClock_3 = fmi3ClockActive then [requestFor st InClock_3] else [])) := by
  unfold tickEvents forEvents startEvents requestFor
  cases inClock2At st.time <;> cases st.inputClocks InClock_3 <;>
    simp [dispatched, dispatchOf]

theorem inClock_1_of_tickEvents (st : State) :
    (dispatched (tickEvents st)).filter (fun a => a.clockRef = vr_InClock_1) =
      [⟨vr_InClock_1, RetvalPtr.returnval InClock_1, st.time⟩] := by
  rw [dispatched_tickEvents]
  have h1 : vrInputClocks InClock_1 = vr_InClock_1 := rfl
  have h2 : vrInputClocks InClock_2 = vr_InClock_2 := rfl
  have h3 : vrInputClocks InClock_3 = vr_InClock_3 := rfl
  simp only [requestFor, h1, h2, h3]
  cases inClock2At st.time <;> cases st.inputClocks InClock_3 <;>
    simp [List.filter]

theorem whileLoop_done (os : OS) (fuel : Nat) (st : State) (h : ¬ st.time < stopTime) :
    whileLoop os fuel st = some (Ctl.next, st) := by
  cases fuel <;> simp [whileLoop, h]

theorem whileLoop_ok (os : OS) (hos : ∀ a, os.beginthreadex a = true) :
    ∀ (n : Nat) (st : State) (fuel : Nat), st.time + n = stopTime → n ≤ fuel →
      ∃ st' em, whileLoop os fuel st = some (Ctl.next, st') ∧
        st'.time = stopTime ∧
        st'.inputClocks InClock_3 = (if n = 0 then st.inputClocks InClock_3 else fmi3ClockInactive) ∧
        st'.trace = st.trace ++ em ∧
        sleeps em = n ∧
        tickTimes em = (List.range n).map (fun (k : Nat) => st.time + (k : Int)) ∧
        (dispatched em).filter (fun a => a.clockRef = vr_InClock_1) =
          (List.range n).map
            (fun (k : Nat) =>
              (⟨vr_InClock_1, RetvalPtr.returnval InClock_1, st.time + (k : Int)⟩ : ThreadArgs)) := by
  intro n
  induction n with
  | zero =>
    intro st fuel ht _
    refine ⟨st, [], whileLoop_done os fuel st ?_, ?_, ?_, ?_, ?_, ?_, ?_⟩
    · simp at ht
      omega
    · simpa using ht
    · simp
    · simp
    · rfl
    · rfl
    · rfl
  | succ n ih =>
    intro st fuel ht hfuel
    obtain ⟨f, rfl⟩ : ∃ f, fuel = f + 1 := ⟨fuel - 1, by omega⟩
    obtain ⟨st1, hb, t1, _, c1, tr1⟩ := whileBody_ok os hos st
    have hlt : st.time < stopTime := by
      push_cast at ht
      omega
    have ht1 : st1.time + n = stopTime := by
      rw [t1]
      unfold stepSize FIXED_SOLVER_STEP
      push_cast at ht
      omega
    obtain ⟨st', em, hw, t', _, tr', hs, htt, hd⟩ := ih st1 f ht1 (by omega)
    refine ⟨st', tickEvents st ++ em, ?_, t', ?_, ?_, ?_, ?_, ?_⟩
    · simp only [whileLoop, hlt, if_true, hb]
      exact hw
    · simp only [Nat.succ_ne_zero, if_false]
      rename_i h3
      rw [h3, c1]
      split <;> rfl
    · rw [tr', tr1, List.append_assoc]
    · rw [sleeps_append, sleeps_tickEvents, hs]
      omega
    · rw [tickTimes_append, tickTimes_tickEvents, htt, List.range_succ_eq_map]
      simp only [List.map_cons, List.map_map, List.singleton_append, Nat.cast_zero, add_zero]
      congr 1
      apply List.map_congr_left
      intro k _
      simp only [Function.comp, t1, stepSize, FIXED_SOLVER_STEP]
      push_cast
      ring
    · rw [dispatched_append, List.filter_append, inClock_1_of_tickEvents, hd,
        List.range_succ_eq_map]
      simp only [List.map_cons, List.map_map, List.singleton_append, Nat.cast_zero, add_zero]
      congr 1
      apply List.map_congr_left
      intro k _
      simp only [Function.comp, t1, stepSize, FIXED_SOLVER_STEP]
      push_cast
      congr 1
      ring

/-- C2: the tick loop started at time `START_TIME = 0` with every thread
creation succeeding runs to its end for every fuel of at least 10 passes; it
makes exactly 10 passes (10 `Sleep` calls), at the tick times 0, 1, ..., 9 (time
10 is reached but not considered), and the requests dispatched for InClock_1
are exactly one per tick, in tick order, each with the tick's time as
activation time. -/
theorem C2_ten_ticks_one_InClock_1_request_each (os : OS) (st : State) (fuel : Nat)
    (hos : ∀ a, os.beginthreadex a = true) (ht : st.time = START_TIME) (hfuel : 10 ≤ fuel) :
    ∃ st', whileLoop os fuel st = some (Ctl.next, st') ∧
      st'.time = STOP_TIME ∧
      sleeps (emitted st st') = 10 ∧
      tickTimes (emitted st st') = [0, 1, 2, 3, 4, 5, 6, 7, 8, 9] ∧
      (dispatched (emitted st st')).filter (fun a => a.clockRef = vr_InClock_1) =
        [0, 1, 2, 3, 4, 5, 6, 7, 8, 9].map
          (fun t => (⟨vr_InClock_1, RetvalPtr.returnval InClock_1, t⟩ : ThreadArgs)) := by
  have h10 : st.time + ((10 : Nat) : Int) = stopTime := by
    rw [ht]
    rfl
  obtain ⟨st', em, hw, t', _, tr', hs, htt, hd⟩ := whileLoop_ok os hos 10 st fuel h10 hfuel
  refine ⟨st', hw, t', ?_, ?_, ?_⟩
  · rw [emitted_of_trace tr', hs]
  · rw [emitted_of_trace tr', htt, ht]
    rfl
  · rw [emitted_of_trace tr', hd, ht]
    rfl

theorem C2_witness :
    ∃ st', whileLoop okOS 10 State.init = some (Ctl.next, st') ∧
      st'.time = STOP_TIME ∧
      sleeps (emitted State.init st') = 10 ∧
      tickTimes (emitted State.init st') = [0, 1, 2, 3, 4, 5, 6, 7, 8, 9] ∧
      (dispatched (emitted State.init st')).filter (fun a => a.clockRef = vr_InClock_1) =
        [0, 1, 2, 3, 4, 5, 6, 7, 8, 9].map
          (fun t => (⟨vr_InClock_1, RetvalPtr.returnval InClock_1, t⟩ : ThreadArgs)) :=
  C2_ten_ticks_one_InClock_1_request_each okOS State.init 10 (fun _ => rfl) rfl (by decide)

/-- C8: in a pass of the tick loop in which every thread creation succeeds,
the requests dispatched are, in ascending clock index order, one for each
input clock that `setAndCheckInputClocks` left Active (and none for any other
clock), each for the current time; at the end of the pass every input clock is
Inactive. -/
theorem C8_one_request_per_active_clock_in_index_order (os : OS) (st : State)
    (hos : ∀ a, os.beginthreadex a = true) :
    ∃ st', whileBody os st = (Ctl.next, st') ∧
      dispatched (emitted st st') =
        (clockIndices.filter
            (fun i => (setAndCheckInputClocks st.time st).2.inputClocks i = fmi3ClockActive)).map
          (requestFor st) ∧
      ∀ i, st'.inputClocks i = fmi3ClockInactive := by
  obtain ⟨st1, hb, _, _, c1, tr1⟩ := whileBody_ok os hos st
  refine ⟨st1, hb, ?_, ?_⟩
  · rw [emitted_of_trace tr1, dispatched_tickEvents, setAndCheckInputClocks_eq]
    have h31 : ¬ (InClock_3 = (1 : Fin N_INPUT_CLOCKS)) := by decide
    have h30 : ¬ (InClock_3 = (0 : Fin N_INPUT_CLOCKS)) := by decide
    cases h2 : inClock2At st.time <;> cases h3 : st.inputClocks InClock_3 <;>
      simp [clockIndices, List.filter, Function.update, h3, h31, h30]
  · intro i
    rw [c1]

theorem C8_witness :
    ∃ st', whileBody okOS State.init = (Ctl.next, st') ∧
      dispatched (emitted State.init st') =
        (clockIndices.filter
            (fun i => (setAndCheckInputClocks State.init.time State.init).2.inputClocks i =
              fmi3ClockActive)).map
          (requestFor State.init) ∧
      ∀ i, st'.inputClocks i = fmi3ClockInactive :=
  C8_one_request_per_active_clock_in_index_order okOS State.init (fun _ => rfl)

/-! ## The tick loop when thread creation may fail -/

theorem threadCreations_startEvents (st : State) (i : Fin N_INPUT_CLOCKS) :
    threadCreations (startEvents st i) = [(requestFor st i, true)] := by
  simp [threadCreations, creationOf, startEvents, requestFor]

theorem threadCreations_failEvents (st : State) (i : Fin N_INPUT_CLOCKS) :
    threadCreations (failEvents st i) = [(requestFor st i, false)] := by
  simp [threadCreations, creationOf, failEvents, requestFor]

theorem forLoop_general (os : OS) :
    ∀ (l : List (Fin N_INPUT_CLOCKS)) (st : State),
      ∃ em, (forLoop os l st).2.trace = st.trace ++ em ∧
        (forLoop os l st).2.time = st.time ∧
        (∀ j, st.inputClocks j = fmi3ClockInactive →
          (forLoop os l st).2.inputClocks j = fmi3ClockInactive) ∧
        (∀ c ∈ threadCreations em,
          ∃ i, st.inputClocks i = fmi3ClockActive ∧ c.1 = requestFor st i) ∧
        ((forLoop os l st).1 = Ctl.next →
          (forLoop os l st).2.status = st.status ∧ ∀ c ∈ threadCreations em, c.2 = true) ∧
        ((forLoop os l st).1 = Ctl.out →
          (forLoop os l st).2.status = fmi3Fatal ∧
            ∃ pre i, em = pre ++ failEvents st i ∧ ∀ c ∈ threadCreations pre, c.2 = true) := by
  intro l
  induction l with
  | nil =>
    intro st
    refine ⟨[], by simp [forLoop], rfl, fun _ h => h, ?_, ?_, ?_⟩
    · intro c hc
      simp [threadCreations] at hc
    · intro _
      refine ⟨rfl, ?_⟩
      intro c hc
      simp [threadCreations] at hc
    · intro h
      simp [forLoop] at h
  | cons i rest ih =>
    intro st
    cases hi : st.inputClocks i
    · -- the clock is Inactive: nothing happens for it
      have e : forLoop os (i :: rest) st = forLoop os rest st := by
        simp only [forLoop, forBody_inactive os i st hi]
      rw [e]
      exact ih st
    · cases hb : os.beginthreadex ⟨vrInputClocks i, RetvalPtr.returnval i, st.time⟩
      · -- the thread could not be created
        have e : forLoop os (i :: rest) st = forBody os i st := by
          simp only [forLoop, forBody_failed os i st hi hb]
        rw [e, forBody_failed os i st hi hb]
        refine ⟨failEvents st i, rfl, rfl, fun _ h => h, ?_, ?_, ?_⟩
        · intro c hc
          rw [threadCreations_failEvents] at hc
          simp only [List.mem_singleton] at hc
          exact ⟨i, hi, by rw [hc]⟩
        · intro h
          simp at h
        · intro _
          refine ⟨rfl, [], i, rfl, ?_⟩
          intro c hc
          simp [threadCreations] at hc
      · -- the thread was created
        have e : forLoop os (i :: rest) st = forLoop os rest (forBody os i st).2 := by
          simp only [forLoop, forBody_started os i st hi hb]
        rw [e, forBody_started os i st hi hb]
        dsimp only
        generalize hst1 : ({ trace := _, .. } : State) = st1
        have t1 : st1.time = st.time := by
          subst hst1
          rfl
        have tr1 : st1.trace = st.trace ++ startEvents st i := by
          subst hst1
          rfl
        have s1 : st1.status = st.status := by
          subst hst1
          rfl
        have c1 : st1.inputClocks = Function.update st.inputClocks i fmi3ClockInactive := by
          subst hst1
          rfl
        have hreq : ∀ j, requestFor st1 j = requestFor st j := by
          intro j
          simp only [requestFor, t1]
        have hfail : ∀ j, failEvents st1 j = failEvents st j := by
          intro j
          simp only [failEvents, t1]
        have hact : ∀ j, st1.inputClocks j = fmi3ClockActive →
            st.inputClocks j = fmi3ClockActive := by
          intro j hj
          rw [c1] at hj
          by_cases hji : j = i
          · rw [hji]
            exact hi
          · rwa [Function.update_noteq hji] at hj
        have hina : ∀ j, st.inputClocks j = fmi3ClockInactive →
            st1.inputClocks j = fmi3ClockInactive := by
          intro j hj
          rw [c1]
          by_cases hji : j = i
          · rw [hji, Function.update_same]
          · rwa [Function.update_noteq hji]
        obtain ⟨em, h1, h2, h3, h4, h5, h6⟩ := ih st1
        refine ⟨startEvents st i ++ em, ?_, ?_, ?_, ?_, ?_, ?_⟩
        · rw [h1, tr1, List.append_assoc]
        · rw [h2, t1]
        · intro j hj
          exact h3 j (hina j hj)
        · intro c hc
          rw [threadCreations_append, threadCreations_startEvents] at hc
          simp only [List.singleton_append, List.mem_cons] at hc
          rcases hc with hc | hc
          · exact ⟨i, hi, by rw [hc]⟩
          · obtain ⟨j, hj, hcj⟩ := h4 c hc
            exact ⟨j, hact j hj, by rw [hcj, hreq]⟩
        · intro hn
          obtain ⟨hs, hall⟩ := h5 hn
          refine ⟨by rw [hs, s1], ?_⟩
          intro c hc
          rw [threadCreations_append, threadCreations_startEvents] at hc
          simp only [List.singleton_append, List.mem_cons] at hc
          rcases hc with hc | hc
          · rw [hc]
          · exact hall c hc
        · intro ho
          obtain ⟨hs, pre, j, hem, hall⟩ := h6 ho
          refine ⟨hs, startEvents st i ++ pre, j, ?_, ?_⟩
          · rw [hem, hfail, List.append_assoc]
          · intro c hc
            rw [threadCreations_append, threadCreations_startEvents] at hc
            simp only [List.singleton_append, List.mem_cons] at hc
            rcases hc with hc | hc
            · rw [hc]
            · exact hall c hc

theorem whileBody_general (os : OS) (st : State) :
    ∃ em, (whileBody os st).2.trace = st.trace ++ em ∧
      (st.inputClocks InClock_3 = fmi3ClockInactive →
        (whileBody os st).2.inputClocks InClock_3 = fmi3ClockInactive ∧
          ∀ c ∈ threadCreations em, c.1.clockRef ≠ vr_InClock_3) ∧
      ((whileBody os st).1 = Ctl.next →
        (whileBody os st).2.status = st.status ∧
          (whileBody os st).2.time = st.time + stepSize ∧
          ∀ c ∈ threadCreations em, c.2 = true) ∧
      ((whileBody os st).1 = Ctl.out →
        (whileBody os st).2.status = fmi3Fatal ∧
          (whileBody os st).2.time = st.time ∧
          ∃ pre a, em = pre ++
              [Event.beginthreadex a false, Event.logEvent LogMsg.noThreadInMainLoop] ∧
            ∀ c ∈ threadCreations pre, c.2 = true) := by
  unfold whileBody
  rw [setAndCheckInputClocks_eq]
  simp only [if_true, State.emit]
  generalize hst2 : ({ trace := _, .. } : State) = st2
  have t2 : st2.time = st.time := by
    subst hst2
    rfl
  have s2 : st2.status = st.status := by
    subst hst2
    rfl
  have c2 : st2.inputClocks InClock_3 = st.inputClocks InClock_3 := by
    subst hst2
    show Function.update (Function.update st.inputClocks InClock_1 fmi3ClockActive) InClock_2
      (inClock2At st.time) InClock_3 = st.inputClocks InClock_3
    rw [Function.update_noteq (by decide), Function.update_noteq (by decide)]
  have tr2 : st2.trace = st.trace ++
      [Event.logEvent (LogMsg.inputClockStates st.time fmi3ClockActive (inClock2At st.time)),
        Event.logEvent (LogMsg.tickTime st.time)] := by
    subst hst2
    simp
  obtain ⟨em, h1, h2, h3, h4, h5, h6⟩ := forLoop_general os clockIndices st2
  have hclk : st.inputClocks InClock_3 = fmi3ClockInactive →
      ∀ c ∈ threadCreations em, c.1.clockRef ≠ vr_InClock_3 := by
    intro h c hc
    obtain ⟨i, hi, hci⟩ := h4 c hc
    rw [hci]
    have hne : i ≠ InClock_3 := by
      intro hi3
      rw [hi3, c2, h] at hi
      exact Bool.false_ne_true hi
    revert hne
    simp only [requestFor, vrInputClocks]
    fin_cases i <;> simp
  rcases hfl : forLoop os clockIndices st2 with ⟨c, st3⟩
  rw [hfl] at h1 h2 h3 h5 h6
  cases c
  · -- the `for` loop ran to its end
    dsimp only at h1 h2 h3 h5 h6 ⊢
    obtain ⟨hs, hall⟩ := h5 rfl
    refine ⟨[Event.logEvent (LogMsg.inputClockStates st.time fmi3ClockActive (inClock2At st.time)),
        Event.logEvent (LogMsg.tickTime st.time)] ++ em ++ [Event.Sleep 950], ?_, ?_, ?_, ?_⟩
    · rw [h1, tr2]
      simp
    · intro h
      refine ⟨h3 _ (by rw [c2, h]), ?_⟩
      intro c hc
      simp only [threadCreations_append] at hc
      simp [threadCreations, creationOf] at hc
      exact hclk h c (by simpa [threadCreations] using hc)
    · intro _
      refine ⟨by rw [hs, s2], by rw [h2, t2], ?_⟩
      intro c hc
      simp only [threadCreations_append] at hc
      simp [threadCreations, creationOf] at hc
      exact hall c (by simpa [threadCreations] using hc)
    · intro h
      simp at h
  · -- `goto out`
    dsimp only at h1 h2 h3 h5 h6 ⊢
    obtain ⟨hs, pre, i, hem, hall⟩ := h6 rfl
    refine ⟨[Event.logEvent (LogMsg.inputClockStates st.time fmi3ClockActive (inClock2At st.time)),
        Event.logEvent (LogMsg.tickTime st.time)] ++ em, ?_, ?_, ?_, ?_⟩
    · rw [h1, tr2]
      simp
    · intro h
      refine ⟨h3 _ (by rw [c2, h]), ?_⟩
      intro c hc
      simp only [threadCreations_append] at hc
      simp [threadCreations, creationOf] at hc
      exact hclk h c (by simpa [threadCreations] using hc)
    · intro h
      simp at h
    · intro _
      refine ⟨hs, by rw [h2, t2], ?_⟩
      refine ⟨[Event.logEvent (LogMsg.inputClockStates st.time fmi3ClockActive (inClock2At st.time)),
          Event.logEvent (LogMsg.tickTime st.time)] ++ pre ++
          [Event.logEvent (LogMsg.startingThread
            (if i = InClock_1 then "InClock_1" else "InClock_2") (vrInputClocks i))],
        ⟨vrInputClocks i, RetvalPtr.returnval i, st2.time⟩, ?_, ?_⟩
      · rw [hem]
        simp [failEvents]
      · intro c hc
        simp only [threadCreations_append] at hc
        simp [threadCreations, creationOf] at hc
        exact hall c (by simpa [threadCreations] using hc)

theorem whileLoop_general (os : OS) :
    ∀ (fuel : Nat) (st : State) (c : Ctl) (st' : State),
      whileLoop os fuel st = some (c, st') →
      ∃ em, st'.trace = st.trace ++ em ∧
        (st.inputClocks InClock_3 = fmi3ClockInactive →
          st'.inputClocks InClock_3 = fmi3ClockInactive ∧
            ∀ cr ∈ threadCreations em, cr.1.clockRef ≠ vr_InClock_3) ∧
        (c = Ctl.next →
          st'.status = st.status ∧ ¬ st'.time < stopTime ∧
            ∀ cr ∈ threadCreations em, cr.2 = true) ∧
        (c = Ctl.out →
          st'.status = fmi3Fatal ∧ st'.time < stopTime ∧
            ∃ pre a, em = pre ++
                [Event.beginthreadex a false, Event.logEvent LogMsg.noThreadInMainLoop] ∧
              ∀ cr ∈ threadCreations pre, cr.2 = true) := by
  have stop : ∀ (st : State) (c : Ctl) (st' : State), ¬ st.time < stopTime →
      some (Ctl.next, st) = some (c, st') →
      ∃ em, st'.trace = st.trace ++ em ∧
        (st.inputClocks InClock_3 = fmi3ClockInactive →
          st'.inputClocks InClock_3 = fmi3ClockInactive ∧
            ∀ cr ∈ threadCreations em, cr.1.clockRef ≠ vr_InClock_3) ∧
        (c = Ctl.next →
          st'.status = st.status ∧ ¬ st'.time < stopTime ∧
            ∀ cr ∈ threadCreations em, cr.2 = true) ∧
        (c = Ctl.out →
          st'.status = fmi3Fatal ∧ st'.time < stopTime ∧
            ∃ pre a, em = pre ++
                [Event.beginthreadex a false, Event.logEvent LogMsg.noThreadInMainLoop] ∧
              ∀ cr ∈ threadCreations pre, cr.2 = true) := by
    intro st c st' hlt h
    simp only [Option.some.injEq, Prod.mk.injEq] at h
    obtain ⟨hc, hst⟩ := h
    subst hc
    subst hst
    refine ⟨[], by simp, fun h => ⟨h, ?_⟩, fun _ => ⟨rfl, hlt, ?_⟩, fun h => ?_⟩
    · intro cr hcr
      simp [threadCreations] at hcr
    · intro cr hcr
      simp [threadCreations] at hcr
    · simp at h
  intro fuel
  induction fuel with
  | zero =>
    intro st c st' h
    by_cases hlt : st.time < stopTime
    · simp [whileLoop, hlt] at h
    · simp only [whileLoop, hlt, if_false] at h
      exact stop st c st' hlt h
  | succ f ih =>
    intro st c st' h
    by_cases hlt : st.time < stopTime
    · obtain ⟨em1, b1, b2, b3, b4⟩ := whileBody_general os st
      simp only [whileLoop, hlt, if_true] at h
      rcases hwb : whileBody os st with ⟨c1, st1⟩
      rw [hwb] at h b1 b2 b3 b4
      cases c1
      · -- the pass fell through: the loop goes on from `st1`
        dsimp only at h b1 b2 b3 b4
        obtain ⟨hs1, _, hall1⟩ := b3 rfl
        obtain ⟨em2, i1, i2, i3, i4⟩ := ih st1 c st' h
        refine ⟨em1 ++ em2, by rw [i1, b1, List.append_assoc], ?_, ?_, ?_⟩
        · intro h3
          obtain ⟨k1, k2⟩ := b2 h3
          obtain ⟨k3, k4⟩ := i2 k1
          refine ⟨k3, ?_⟩
          intro cr hcr
          rw [threadCreations_append, List.mem_append] at hcr
          rcases hcr with hcr | hcr
          · exact k2 cr hcr
          · exact k4 cr hcr
        · intro hc
          obtain ⟨k1, k2, k3⟩ := i3 hc
          refine ⟨by rw [k1, hs1], k2, ?_⟩
          intro cr hcr
          rw [threadCreations_append, List.mem_append] at hcr
          rcases hcr with hcr | hcr
          · exact hall1 cr hcr
          · exact k3 cr hcr
        · intro hc
          obtain ⟨k1, k2, pre, a, k3, k4⟩ := i4 hc
          refine ⟨k1, k2, em1 ++ pre, a, by rw [k3, List.append_assoc], ?_⟩
          intro cr hcr
          rw [threadCreations_append, List.mem_append] at hcr
          rcases hcr with hcr | hcr
          · exact hall1 cr hcr
          · exact k4 cr hcr
      · -- the pass left by `goto out`
        dsimp only at h b1 b2 b3 b4
        simp only [Option.some.injEq, Prod.mk.injEq] at h
        obtain ⟨hc, hst⟩ := h
        subst hc
        subst hst
        obtain ⟨k1, k2, k3⟩ := b4 rfl
        refine ⟨em1, b1, b2, ?_, ?_⟩
        · intro hc
          simp at hc
        · intro _
          exact ⟨k1, by rw [k2]; exact hlt, k3⟩
    · simp only [whileLoop, hlt, if_false] at h
      exact stop st c st' hlt h

theorem whileLoop_returns (os : OS) :
    ∀ (n : Nat) (st : State) (fuel : Nat), stopTime - st.time ≤ (n : Int) → n ≤ fuel →
      ∃ c st', whileLoop os fuel st = some (c, st') := by
  intro n
  induction n with
  | zero =>
    intro st fuel hn _
    refine ⟨Ctl.next, st, whileLoop_done os fuel st ?_⟩
    simp at hn
    omega
  | succ n ih =>
    intro st fuel hn hfuel
    obtain ⟨f, rfl⟩ : ∃ f, fuel = f + 1 := ⟨fuel - 1, by omega⟩
    by_cases hlt : st.time < stopTime
    · obtain ⟨em1, _, _, b3, _⟩ := whileBody_general os st
      rcases hwb : whileBody os st with ⟨c1, st1⟩
      rw [hwb] at b3
      cases c1
      · obtain ⟨_, ht1, _⟩ := b3 rfl
        dsimp only at ht1
        have hn1 : stopTime - st1.time ≤ (n : Int) := by
          rw [ht1]
          unfold stepSize FIXED_SOLVER_STEP
          push_cast at hn
          omega
        obtain ⟨c, st', hw⟩ := ih st1 f hn1 (by omega)
        exact ⟨c, st', by simp only [whileLoop, hlt, if_true, hwb]; exact hw⟩
      · exact ⟨Ctl.out, st1, by simp only [whileLoop, hlt, if_true, hwb]⟩
    · exact ⟨Ctl.next, st, whileLoop_done os (f + 1) st hlt⟩

/-! ## Facts about `thr_activateModelPartition` -/

theorem thr_unknown (fmu : Collaborator) (TA : ThreadArgs) (st : State)
    (h1 : TA.clockRef ≠ vr_InClock_1) (h2 : TA.clockRef ≠ vr_InClock_2)
    (h3 : TA.clockRef ≠ vr_InClock_3) :
    thr_activateModelPartition fmu TA st =
      { st with trace := st.trace ++ [Event.endthreadex fmi3Error] } := by
  simp [thr_activateModelPartition, h1, h2, h3, State.emit]

theorem thr_c1_failed (fmu : Collaborator) (TA : ThreadArgs) (st : State)
    (h : TA.clockRef = vr_InClock_1)
    (ha : fmu.fmi3ActivateModelPartition TA.clockRef TA.activationTime ≠ fmi3OK) :
    thr_activateModelPartition fmu TA st =
      { st with trace := st.trace ++
          [Event.logEvent (LogMsg.activating TA.clockRef),
            Event.fmi3ActivateModelPartition TA.clockRef TA.activationTime
              (fmu.fmi3ActivateModelPartition TA.clockRef TA.activationTime),
            Event.endthreadex (fmu.fmi3ActivateModelPartition TA.clockRef TA.activationTime)] } := by
  unfold thr_activateModelPartition
  rw [if_pos h]
  simp [ha, State.emit]

theorem thr_c1_done (fmu : Collaborator) (TA : ThreadArgs) (st : State)
    (h : TA.clockRef = vr_InClock_1)
    (ha : fmu.fmi3ActivateModelPartition TA.clockRef TA.activationTime = fmi3OK) :
    thr_activateModelPartition fmu TA st =
      { st with
        outputs_c1 := store st.outputs_c1 2
          (fmu.fmi3GetInt32 vrOutputs_c1 [st.outputs_c1 0, st.outputs_c1 1]).2
        trace := st.trace ++
          [Event.logEvent (LogMsg.activating TA.clockRef),
            Event.fmi3ActivateModelPartition TA.clockRef TA.activationTime fmi3OK,
            Event.fmi3GetInt32 vrOutputs_c1
              (fmu.fmi3GetInt32 vrOutputs_c1 [st.outputs_c1 0, st.outputs_c1 1]).1
              (fmu.fmi3GetInt32 vrOutputs_c1 [st.outputs_c1 0, st.outputs_c1 1]).2,
            Event.fprintf InClock_1 TA.activationTime
              (store st.outputs_c1 2
                (fmu.fmi3GetInt32 vrOutputs_c1 [st.outputs_c1 0, st.outputs_c1 1]).2 0)
              (store st.outputs_c1 2
                (fmu.fmi3GetInt32 vrOutputs_c1 [st.outputs_c1 0, st.outputs_c1 1]).2 1),
            Event.logEvent (LogMsg.record TA.activationTime
              (store st.outputs_c1 2
                (fmu.fmi3GetInt32 vrOutputs_c1 [st.outputs_c1 0, st.outputs_c1 1]).2 0)
              (store st.outputs_c1 2
                (fmu.fmi3GetInt32 vrOutputs_c1 [st.outputs_c1 0, st.outputs_c1 1]).2 1)),
            Event.endthreadex
              (fmu.fmi3GetInt32 vrOutputs_c1 [st.outputs_c1 0, st.outputs_c1 1]).1] } := by
  unfold thr_activateModelPartition
  rw [if_pos h]
  simp [ha, State.emit, recordVariables]

theorem thr_c2_push_failed (fmu : Collaborator) (TA : ThreadArgs) (st : State)
    (h : TA.clockRef = vr_InClock_2)
    (hs : fmu.fmi3SetInt32 vrInputs_c2 [st.inputs_c2 0] ≠ fmi3OK) :
    thr_activateModelPartition fmu TA st =
      { st with
        inputs_c2 := Function.update st.inputs_c2 0 0
        trace := st.trace ++
          [Event.logEvent (LogMsg.activating TA.clockRef),
            Event.fmi3SetInt32 vrInputs_c2 [st.inputs_c2 0]
              (fmu.fmi3SetInt32 vrInputs_c2 [st.inputs_c2 0]),
            Event.endthreadex (fmu.fmi3SetInt32 vrInputs_c2 [st.inputs_c2 0])] } := by
  have h1 : TA.clockRef ≠ vr_InClock_1 := by
    rw [h]
    decide
  unfold thr_activateModelPartition
  rw [if_neg h1, if_pos h]
  simp [hs, State.emit]

theorem thr_c2_failed (fmu : Collaborator) (TA : ThreadArgs) (st : State)
    (h : TA.clockRef = vr_InClock_2)
    (hs : fmu.fmi3SetInt32 vrInputs_c2 [st.inputs_c2 0] = fmi3OK)
    (ha : fmu.fmi3ActivateModelPartition TA.clockRef TA.activationTime ≠ fmi3OK) :
    thr_activateModelPartition fmu TA st =
      { st with
        inputs_c2 := Function.update st.inputs_c2 0 0
        trace := st.trace ++
          [Event.logEvent (LogMsg.activating TA.clockRef),
            Event.fmi3SetInt32 vrInputs_c2 [st.inputs_c2 0] fmi3OK,
            Event.fmi3ActivateModelPartition TA.clockRef TA.activationTime
              (fmu.fmi3ActivateModelPartition TA.clockRef TA.activationTime),
            Event.endthreadex (fmu.fmi3ActivateModelPartition TA.clockRef TA.activationTime)] } := by
  have h1 : TA.clockRef ≠ vr_InClock_1 := by
    rw [h]
    decide
  unfold thr_activateModelPartition
  rw [if_neg h1, if_pos h]
  simp [hs, ha, State.emit]

theorem thr_c2_done (fmu : Collaborator) (TA : ThreadArgs) (st : State)
    (h : TA.clockRef = vr_InClock_2)
    (hs : fmu.fmi3SetInt32 vrInputs_c2 [st.inputs_c2 0] = fmi3OK)
    (ha : fmu.fmi3ActivateModelPartition TA.clockRef TA.activationTime = fmi3OK) :
    thr_activateModelPartition fmu TA st =
      { st with
        inputs_c2 := Function.update st.inputs_c2 0 0
        outputs_c2 := store st.outputs_c2 2
          (fmu.fmi3GetInt32 vrOutputs_c2 [st.outputs_c2 0, st.outputs_c2 1]).2
        trace := st.trace ++
          [Event.logEvent (LogMsg.activating TA.clockRef),
            Event.fmi3SetInt32 vrInputs_c2 [st.inputs_c2 0] fmi3OK,
            Event.fmi3ActivateModelPartition TA.clockRef TA.activationTime fmi3OK,
            Event.fmi3GetInt32 vrOutputs_c2
              (fmu.fmi3GetInt32 vrOutputs_c2 [st.outputs_c2 0, st.outputs_c2 1]).1
              (fmu.fmi3GetInt32 vrOutputs_c2 [st.outputs_c2 0, st.outputs_c2 1]).2,
            Event.fprintf InClock_2 TA.activationTime
              (store st.outputs_c2 2
                (fmu.fmi3GetInt32 vrOutputs_c2 [st.outputs_c2 0, st.outputs_c2 1]).2 0)
              (store st.outputs_c2 2
                (fmu.fmi3GetInt32 vrOutputs_c2 [st.outputs_c2 0, st.outputs_c2 1]).2 1),
            Event.logEvent (LogMsg.record TA.activationTime
              (store st.outputs_c2 2
                (fmu.fmi3GetInt32 vrOutputs_c2 [st.outputs_c2 0, st.outputs_c2 1]).2 0)
              (store st.outputs_c2 2
                (fmu.fmi3GetInt32 vrOutputs_c2 [st.outputs_c2 0, st.outputs_c2 1]).2 1)),
            Event.endthreadex
              (fmu.fmi3GetInt32 vrOutputs_c2 [st.outputs_c2 0, st.outputs_c2 1]).1] } := by
  have h1 : TA.clockRef ≠ vr_InClock_1 := by
    rw [h]
    decide
  unfold thr_activateModelPartition
  rw [if_neg h1, if_pos h]
  simp [hs, ha, State.emit, recordVariables]

theorem thr_c3_failed (fmu : Collaborator) (TA : ThreadArgs) (st : State)
    (h : TA.clockRef = vr_InClock_3)
    (ha : fmu.fmi3ActivateModelPartition TA.clockRef TA.activationTime ≠ fmi3OK) :
    thr_activateModelPartition fmu TA st =
      { st with trace := st.trace ++
          [Event.logEvent (LogMsg.activating TA.clockRef),
            Event.fmi3ActivateModelPartition TA.clockRef TA.activationTime
              (fmu.fmi3ActivateModelPartition TA.clockRef TA.activationTime),
            Event.endthreadex (fmu.fmi3ActivateModelPartition TA.clockRef TA.activationTime)] } := by
  have h1 : TA.clockRef ≠ vr_InClock_1 := by
    rw [h]
    decide
  have h2 : TA.clockRef ≠ vr_InClock_2 := by
    rw [h]
    decide
  unfold thr_activateModelPartition
  rw [if_neg h1, if_neg h2, if_pos h]
  simp [ha, State.emit]

theorem thr_c3_done (fmu : Collaborator) (TA : ThreadArgs) (st : State)
    (h : TA.clockRef = vr_InClock_3)
    (ha : fmu.fmi3ActivateModelPartition TA.clockRef TA.activationTime = fmi3OK) :
    thr_activateModelPartition fmu TA st =
      { st with
        outputs_c3 := store st.outputs_c3 2
          (fmu.fmi3GetInt32 vrOutputs_c3 [st.outputs_c3 0, st.outputs_c3 1]).2
        inputs_c2 := Function.update st.inputs_c2 0
          (store st.outputs_c3 2
            (fmu.fmi3GetInt32 vrOutputs_c3 [st.outputs_c3 0, st.outputs_c3 1]).2 1)
        trace := st.trace ++
          [Event.logEvent (LogMsg.activating TA.clockRef),
            Event.fmi3ActivateModelPartition TA.clockRef TA.activationTime fmi3OK,
            Event.fmi3GetInt32 vrOutputs_c3
              (fmu.fmi3GetInt32 vrOutputs_c3 [st.outputs_c3 0, st.outputs_c3 1]).1
              (fmu.fmi3GetInt32 vrOutputs_c3 [st.outputs_c3 0, st.outputs_c3 1]).2,
            Event.fprintf InClock_3 TA.activationTime
              (store st.outputs_c3 2
                (fmu.fmi3GetInt32 vrOutputs_c3 [st.outputs_c3 0, st.outputs_c3 1]).2 0)
              (store st.outputs_c3 2
                (fmu.fmi3GetInt32 vrOutputs_c3 [st.outputs_c3 0, st.outputs_c3 1]).2 1),
            Event.logEvent (LogMsg.record TA.activationTime
              (store st.outputs_c3 2
                (fmu.fmi3GetInt32 vrOutputs_c3 [st.outputs_c3 0, st.outputs_c3 1]).2 0)
              (store st.outputs_c3 2
                (fmu.fmi3GetInt32 vrOutputs_c3 [st.outputs_c3 0, st.outputs_c3 1]).2 1)),
            Event.endthreadex
              (fmu.fmi3GetInt32 vrOutputs_c3 [st.outputs_c3 0, st.outputs_c3 1]).1] } := by
  have h1 : TA.clockRef ≠ vr_InClock_1 := by
    rw [h]
    decide
  have h2 : TA.clockRef ≠ vr_InClock_2 := by
    rw [h]
    decide
  unfold thr_activateModelPartition
  rw [if_neg h1, if_neg h2, if_pos h]
  simp [ha, State.emit, recordVariables]

/-- C5 (as amended): for every request (every clock reference, known or not)
and every outcome of the collaborator calls, `thr_activateModelPartition`
leaves every result cell as it was, the one `ThreadArgs.retval` points to
included: it never writes it.  The final status is handed over exactly once, as
the argument of the `_endthreadex` call that is the last thing the activation
does: it is the status of the last collaborator call, or `fmi3Error` (with no
collaborator call at all) for an unknown clock reference. -/
theorem C5_status_leaves_by_thread_exit_cell_untouched (fmu : Collaborator) (TA : ThreadArgs)
    (st : State) :
    (thr_activateModelPartition fmu TA st).returnval = st.returnval ∧
      (thr_activateModelPartition fmu TA st).cb_returnval = st.cb_returnval ∧
      (thr_activateModelPartition fmu TA st).deref TA.retval = st.deref TA.retval ∧
      ∃ r, threadExits (emitted st (thr_activateModelPartition fmu TA st)) = [r] ∧
        (emitted st (thr_activateModelPartition fmu TA st)).getLast? =
          some (Event.endthreadex r) ∧
        (if knownClockRef TA.clockRef = true then
          lastCallStatus (emitted st (thr_activateModelPartition fmu TA st)) = some r
        else
          r = fmi3Error ∧
            emitted st (thr_activateModelPartition fmu TA st) = [Event.endthreadex fmi3Error]) := by
  have hderef : ∀ st' : State, st'.returnval = st.returnval → st'.cb_returnval = st.cb_returnval →
      st'.deref TA.retval = st.deref TA.retval := by
    intro st' e1 e2
    cases TA.retval <;> simp [State.deref, e1, e2]
  by_cases h1 : TA.clockRef = vr_InClock_1
  · have hk : knownClockRef TA.clockRef = true := by simp [knownClockRef, h1]
    by_cases ha : fmu.fmi3ActivateModelPartition TA.clockRef TA.activationTime = fmi3OK
    · rw [thr_c1_done fmu TA st h1 ha]
      refine ⟨rfl, rfl, hderef _ rfl rfl, (fmu.fmi3GetInt32 vrOutputs_c1 [st.outputs_c1 0, st.outputs_c1 1]).1, ?_, ?_, ?_⟩ <;>
        simp [emitted, threadExits, exitOf, lastCallStatus, callStatus, hk]
    · rw [thr_c1_failed fmu TA st h1 ha]
      refine ⟨rfl, rfl, hderef _ rfl rfl, fmu.fmi3ActivateModelPartition TA.clockRef TA.activationTime, ?_, ?_, ?_⟩ <;>
        simp [emitted, threadExits, exitOf, lastCallStatus, callStatus, hk]
  · by_cases h2 : TA.clockRef = vr_InClock_2
    · have hk : knownClockRef TA.clockRef = true := by simp [knownClockRef, h2]
      by_cases hs : fmu.fmi3SetInt32 vrInputs_c2 [st.inputs_c2 0] = fmi3OK
      · by_cases ha : fmu.fmi3ActivateModelPartition TA.clockRef TA.activationTime = fmi3OK
        · rw [thr_c2_done fmu TA st h2 hs ha]
          refine ⟨rfl, rfl, hderef _ rfl rfl, (fmu.fmi3GetInt32 vrOutputs_c2 [st.outputs_c2 0, st.outputs_c2 1]).1, ?_, ?_, ?_⟩ <;>
            simp [emitted, threadExits, exitOf, lastCallStatus, callStatus, hk]
        · rw [thr_c2_failed fmu TA st h2 hs ha]
          refine ⟨rfl, rfl, hderef _ rfl rfl, fmu.fmi3ActivateModelPartition TA.clockRef TA.activationTime, ?_, ?_, ?_⟩ <;>
            simp [emitted, threadExits, exitOf, lastCallStatus, callStatus, hk]
      · rw [thr_c2_push_failed fmu TA st h2 hs]
        refine ⟨rfl, rfl, hderef _ rfl rfl, fmu.fmi3SetInt32 vrInputs_c2 [st.inputs_c2 0], ?_, ?_, ?_⟩ <;>
          simp [emitted, threadExits, exitOf, lastCallStatus, callStatus, hk]
    · by_cases h3 : TA.clockRef = vr_InClock_3
      · have hk : knownClockRef TA.clockRef = true := by simp [knownClockRef, h3]
        by_cases ha : fmu.fmi3ActivateModelPartition TA.clockRef TA.activationTime = fmi3OK
        · rw [thr_c3_done fmu TA st h3 ha]
          refine ⟨rfl, rfl, hderef _ rfl rfl, (fmu.fmi3GetInt32 vrOutputs_c3 [st.outputs_c3 0, st.outputs_c3 1]).1, ?_, ?_, ?_⟩ <;>
            simp [emitted, threadExits, exitOf, lastCallStatus, callStatus, hk]
        · rw [thr_c3_failed fmu TA st h3 ha]
          refine ⟨rfl, rfl, hderef _ rfl rfl, fmu.fmi3ActivateModelPartition TA.clockRef TA.activationTime, ?_, ?_, ?_⟩ <;>
            simp [emitted, threadExits, exitOf, lastCallStatus, callStatus, hk]
      · have hk : knownClockRef TA.clockRef = false := by simp [knownClockRef, h1, h2, h3]
        rw [thr_unknown fmu TA st h1 h2 h3]
        refine ⟨rfl, rfl, hderef _ rfl rfl, fmi3Error, ?_, ?_, ?_⟩ <;>
          simp [emitted, threadExits, exitOf, lastCallStatus, callStatus, hk]

/-- C5 fails as stated: the activation of InClock_1 requested by `main` at time
0, with every collaborator call succeeding, ends with status `fmi3OK`, yet the
cell `returnval[0]` its `retval` points to is not written: it does not hold the
final status, it is still in its never-written state. -/
theorem C5_counterexample :
    threadExits (emitted State.init
        (thr_activateModelPartition okFMU (requestFor State.init InClock_1) State.init)) =
        [fmi3OK] ∧
      ¬ ((thr_activateModelPartition okFMU (requestFor State.init InClock_1) State.init).deref
          (requestFor State.init InClock_1).retval = some fmi3OK) ∧
      (thr_activateModelPartition okFMU (requestFor State.init InClock_1) State.init).deref
          (requestFor State.init InClock_1).retval = none := by
  decide

/-- C7: when the input push of partition InClock_2 or the partition-activation
call of any partition answers with a status `r` other than `fmi3OK`, the
activation logs its start, makes the failing call as its last collaborator
call (after the successful push, for InClock_2) and ends the thread with `r`:
nothing is pulled, nothing is recorded, no call is repeated.  No output array
changes, and the hand-off cell `inputs_c2[0]` is not given any value by another
partition: it keeps its content, except that partition InClock_2 itself resets
it to 0. -/
theorem C7_failed_push_or_activation_aborts_the_rest (fmu : Collaborator) (TA : ThreadArgs)
    (st : State)
    (hfail :
      (TA.clockRef = vr_InClock_2 ∧ fmu.fmi3SetInt32 vrInputs_c2 [st.inputs_c2 0] ≠ fmi3OK) ∨
        (knownClockRef TA.clockRef = true ∧
          fmu.fmi3ActivateModelPartition TA.clockRef TA.activationTime ≠ fmi3OK)) :
    (∃ r, r ≠ fmi3OK ∧
        threadExits (emitted st (thr_activateModelPartition fmu TA st)) = [r] ∧
        (emitted st (thr_activateModelPartition fmu TA st) =
            [Event.logEvent (LogMsg.activating TA.clockRef),
              Event.fmi3SetInt32 vrInputs_c2 [st.inputs_c2 0] r,
              Event.endthreadex r] ∨
          emitted st (thr_activateModelPartition fmu TA st) =
            [Event.logEvent (LogMsg.activating TA.clockRef),
              Event.fmi3ActivateModelPartition TA.clockRef TA.activationTime r,
              Event.endthreadex r] ∨
          emitted st (thr_activateModelPartition fmu TA st) =
            [Event.logEvent (LogMsg.activating TA.clockRef),
              Event.fmi3SetInt32 vrInputs_c2 [st.inputs_c2 0] fmi3OK,
              Event.fmi3ActivateModelPartition TA.clockRef TA.activationTime r,
              Event.endthreadex r])) ∧
      (emitted st (thr_activateModelPartition fmu TA st)).filter isRecord = [] ∧
      (thr_activateModelPartition fmu TA st).outputs_c1 = st.outputs_c1 ∧
      (thr_activateModelPartition fmu TA st).outputs_c2 = st.outputs_c2 ∧
      (thr_activateModelPartition fmu TA st).outputs_c3 = st.outputs_c3 ∧
      (TA.clockRef ≠ vr_InClock_2 → (thr_activateModelPartition fmu TA st).inputs_c2 = st.inputs_c2) ∧
      (TA.clockRef = vr_InClock_2 → (thr_activateModelPartition fmu TA st).inputs_c2 0 = 0) := by
  by_cases h1 : TA.clockRef = vr_InClock_1
  · have h2 : TA.clockRef ≠ vr_InClock_2 := by
      rw [h1]
      decide
    have ha : fmu.fmi3ActivateModelPartition TA.clockRef TA.activationTime ≠ fmi3OK := by
      rcases hfail with hf | hf
      · exact absurd hf.1 h2
      · exact hf.2
    rw [thr_c1_failed fmu TA st h1 ha]
    refine ⟨⟨fmu.fmi3ActivateModelPartition TA.clockRef TA.activationTime, ha, ?_, ?_⟩,
      ?_, rfl, rfl, rfl, fun _ => rfl, fun h => absurd h h2⟩ <;>
      simp [emitted, threadExits, exitOf, isRecord]
  · by_cases h2 : TA.clockRef = vr_InClock_2
    · by_cases hs : fmu.fmi3SetInt32 vrInputs_c2 [st.inputs_c2 0] = fmi3OK
      · have ha : fmu.fmi3ActivateModelPartition TA.clockRef TA.activationTime ≠ fmi3OK := by
          rcases hfail with hf | hf
          · exact absurd hs hf.2
          · exact hf.2
        rw [thr_c2_failed fmu TA st h2 hs ha]
        refine ⟨⟨fmu.fmi3ActivateModelPartition TA.clockRef TA.activationTime, ha, ?_, ?_⟩,
          ?_, rfl, rfl, rfl, fun h => absurd h2 h, fun _ => ?_⟩ <;>
          simp [emitted, threadExits, exitOf, isRecord]
      · rw [thr_c2_push_failed fmu TA st h2 hs]
        refine ⟨⟨fmu.fmi3SetInt32 vrInputs_c2 [st.inputs_c2 0], hs, ?_, ?_⟩,
          ?_, rfl, rfl, rfl, fun h => absurd h2 h, fun _ => ?_⟩ <;>
          simp [emitted, threadExits, exitOf, isRecord]
    · by_cases h3 : TA.clockRef = vr_InClock_3
      · have ha : fmu.fmi3ActivateModelPartition TA.clockRef TA.activationTime ≠ fmi3OK := by
          rcases hfail with hf | hf
          · exact absurd hf.1 h2
          · exact hf.2
        rw [thr_c3_failed fmu TA st h3 ha]
        refine ⟨⟨fmu.fmi3ActivateModelPartition TA.clockRef TA.activationTime, ha, ?_, ?_⟩,
          ?_, rfl, rfl, rfl, fun _ => rfl, fun h => absurd h h2⟩ <;>
          simp [emitted, threadExits, exitOf, isRecord]
      · exfalso
        rcases hfail with hf | hf
        · exact h2 hf.1
        · have := hf.1
          simp [knownClockRef, h1, h2, h3] at this

theorem C7_witness :
    (∃ r, r ≠ fmi3OK ∧
        threadExits (emitted State.init
          (thr_activateModelPartition failingFMU (requestFor State.init InClock_2) State.init)) = [r] ∧
        (emitted State.init
            (thr_activateModelPartition failingFMU (requestFor State.init InClock_2) State.init) =
            [Event.logEvent (LogMsg.activating (requestFor State.init InClock_2).clockRef),
              Event.fmi3SetInt32 vrInputs_c2 [State.init.inputs_c2 0] r,
              Event.endthreadex r] ∨
          emitted State.init
            (thr_activateModelPartition failingFMU (requestFor State.init InClock_2) State.init) =
            [Event.logEvent (LogMsg.activating (requestFor State.init InClock_2).clockRef),
              Event.fmi3ActivateModelPartition (requestFor State.init InClock_2).clockRef
                (requestFor State.init InClock_2).activationTime r,
              Event.endthreadex r] ∨
          emitted State.init
            (thr_activateModelPartition failingFMU (requestFor State.init InClock_2) State.init) =
            [Event.logEvent (LogMsg.activating (requestFor State.init InClock_2).clockRef),
              Event.fmi3SetInt32 vrInputs_c2 [State.init.inputs_c2 0] fmi3OK,
              Event.fmi3ActivateModelPartition (requestFor State.init InClock_2).clockRef
                (requestFor State.init InClock_2).activationTime r,
              Event.endthreadex r])) ∧
      (emitted State.init
        (thr_activateModelPartition failingFMU (requestFor State.init InClock_2) State.init)).filter
          isRecord = [] ∧
      (thr_activateModelPartition failingFMU (requestFor State.init InClock_2) State.init).outputs_c1 =
        State.init.outputs_c1 ∧
      (thr_activateModelPartition failingFMU (requestFor State.init InClock_2) State.init).outputs_c2 =
        State.init.outputs_c2 ∧
      (thr_activateModelPartition failingFMU (requestFor State.init InClock_2) State.init).outputs_c3 =
        State.init.outputs_c3 ∧
      ((requestFor State.init InClock_2).clockRef ≠ vr_InClock_2 →
        (thr_activateModelPartition failingFMU (requestFor State.init InClock_2) State.init).inputs_c2 =
          State.init.inputs_c2) ∧
      ((requestFor State.init InClock_2).clockRef = vr_InClock_2 →
        (thr_activateModelPartition failingFMU (requestFor State.init InClock_2) State.init).inputs_c2 0 =
          0) :=
  C7_failed_push_or_activation_aborts_the_rest failingFMU (requestFor State.init InClock_2)
    State.init (Or.inr ⟨by decide, by decide⟩)

theorem checkOutputClocks_eq (fmu : Collaborator) (st : State) :
    checkOutputClocks fmu st =
      (reportedClocks fmu OutClock_1 || reportedClocks fmu OutClock_2,
        { st with
          outputClocks := reportedClocks fmu
          trace := st.trace ++
            [Event.fmi3GetClock vrOutputClocks
              (fmu.fmi3GetClock vrOutputClocks [fmi3ClockInactive, fmi3ClockInactive]).1
              (fmu.fmi3GetClock vrOutputClocks [fmi3ClockInactive, fmi3ClockInactive]).2] }) := by
  rfl

theorem cb_not_ticked (os : OS) (fmu : Collaborator) (st : State) :
    cb_intermediateUpdate os fmu false st =
      (fmi3OK, { st with trace := st.trace ++ [Event.logEvent LogMsg.noClockActive] }) := by
  rfl

theorem cb_none_active (os : OS) (fmu : Collaborator) (st : State)
    (h1 : reportedClocks fmu OutClock_1 = fmi3ClockInactive)
    (h2 : reportedClocks fmu OutClock_2 = fmi3ClockInactive) :
    cb_intermediateUpdate os fmu true st =
      (fmi3OK,
        { st with
          outputClocks := reportedClocks fmu
          trace := st.trace ++
            [Event.fmi3GetClock vrOutputClocks
              (fmu.fmi3GetClock vrOutputClocks [fmi3ClockInactive, fmi3ClockInactive]).1
              (fmu.fmi3GetClock vrOutputClocks [fmi3ClockInactive, fmi3ClockInactive]).2,
              Event.logEvent LogMsg.noClockActive] }) := by
  unfold cb_intermediateUpdate
  rw [checkOutputClocks_eq]
  simp_all [State.emit]

theorem cb_general (os : OS) (fmu : Collaborator) (st : State)
    (h : reportedClocks fmu OutClock_1 = fmi3ClockActive ∨
      reportedClocks fmu OutClock_2 = fmi3ClockActive) :
    (cb_intermediateUpdate os fmu true st).1 = fmi3OK ∧
      (cb_intermediateUpdate os fmu true st).2.status = st.status ∧
      (cb_intermediateUpdate os fmu true st).2.time = st.time ∧
      (cb_intermediateUpdate os fmu true st).2.inputClocks = st.inputClocks ∧
      (cb_intermediateUpdate os fmu true st).2.trace = st.trace ++
        ([Event.fmi3GetClock vrOutputClocks
            (fmu.fmi3GetClock vrOutputClocks [fmi3ClockInactive, fmi3ClockInactive]).1
            (fmu.fmi3GetClock vrOutputClocks [fmi3ClockInactive, fmi3ClockInactive]).2] ++
          ((if reportedClocks fmu OutClock_1 = fmi3ClockActive then
              (if os.beginthreadex (cbRequest st) = true then
                [Event.logEvent (LogMsg.cbStartingThread vr_InClock_3),
                  Event.beginthreadex (cbRequest st) true,
                  Event.SetThreadAffinityMask st.processorMask,
                  Event.SetThreadPriority (inputClockPrio InClock_3)]
              else
                [Event.logEvent (LogMsg.cbStartingThread vr_InClock_3),
                  Event.beginthreadex (cbRequest st) false,
                  Event.logEvent LogMsg.noThreadInCallback])
            else []) ++
            (if reportedClocks fmu OutClock_2 = fmi3ClockActive then
              [Event.logEvent (LogMsg.outputClock2 st.time)]
            else []))) := by
  unfold cb_intermediateUpdate
  rw [checkOutputClocks_eq]
  unfold cbRequest
  cases h1 : reportedClocks fmu OutClock_1 <;> cases h2 : reportedClocks fmu OutClock_2 <;>
    cases hb : os.beginthreadex ⟨vr_InClock_3, RetvalPtr.cb_returnval, st.time⟩ <;>
    simp_all [State.emit]

theorem cb_not_ticked_or_none (os : OS) (fmu : Collaborator) (clocksTicked : Bool) (st : State)
    (h : clocksTicked = false ∨
      (reportedClocks fmu OutClock_1 = fmi3ClockInactive ∧
        reportedClocks fmu OutClock_2 = fmi3ClockInactive)) :
    (cb_intermediateUpdate os fmu clocksTicked st).1 = fmi3OK ∧
      (cb_intermediateUpdate os fmu clocksTicked st).2.status = st.status ∧
      (cb_intermediateUpdate os fmu clocksTicked st).2.inputClocks = st.inputClocks ∧
      threadCreations (emitted st (cb_intermediateUpdate os fmu clocksTicked st).2) = [] ∧
      Event.logEvent LogMsg.noClockActive ∈
        emitted st (cb_intermediateUpdate os fmu clocksTicked st).2 := by
  cases clocksTicked
  · rw [cb_not_ticked]
    simp [emitted, threadCreations, creationOf]
  · rcases h with h | h
    · exact absurd h (by decide)
    · rw [cb_none_active os fmu st h.1 h.2]
      simp [emitted, threadCreations, creationOf]

/-- C3 (as amended): `cb_intermediateUpdate` always returns `fmi3OK`, and
(1) when `clocksTicked` is set, the collaborator reports OutClock_1 as Active
and the thread can be created, exactly one request is dispatched: for
InClock_3, with the current simulation time as activation time, and its thread
gets the priority configured for InClock_3; (2) when in the same situation the
thread cannot be created, no request is dispatched, no priority is set and the
failure is logged; (3) when `clocksTicked` is set and only OutClock_2 is
reported Active, no thread creation is attempted and the tick of OutClock_2 is
logged with the current time; (4) when no output clock is reported Active, no
thread creation is attempted; (5) when `clocksTicked` is not set, the
collaborator is not asked and the only effect is the log line "No clock
active". -/
theorem C3_callback_dispatches_InClock_3_for_OutClock_1 (os : OS) (fmu : Collaborator)
    (clocksTicked : Bool) (st : State) :
    (cb_intermediateUpdate os fmu clocksTicked st).1 = fmi3OK ∧
      (clocksTicked = true →
        (checkOutputClocks fmu st).2.outputClocks OutClock_1 = fmi3ClockActive →
        os.beginthreadex (cbRequest st) = true →
          dispatched (emitted st (cb_intermediateUpdate os fmu clocksTicked st).2) =
              [⟨vr_InClock_3, RetvalPtr.cb_returnval, st.time⟩] ∧
            threadCreations (emitted st (cb_intermediateUpdate os fmu clocksTicked st).2) =
              [(cbRequest st, true)] ∧
            priorities (emitted st (cb_intermediateUpdate os fmu clocksTicked st).2) =
              [inputClockPrio InClock_3]) ∧
      (clocksTicked = true →
        (checkOutputClocks fmu st).2.outputClocks OutClock_1 = fmi3ClockActive →
        os.beginthreadex (cbRequest st) = false →
          dispatched (emitted st (cb_intermediateUpdate os fmu clocksTicked st).2) = [] ∧
            threadCreations (emitted st (cb_intermediateUpdate os fmu clocksTicked st).2) =
              [(cbRequest st, false)] ∧
            priorities (emitted st (cb_intermediateUpdate os fmu clocksTicked st).2) = [] ∧
            Event.logEvent LogMsg.noThreadInCallback ∈
              emitted st (cb_intermediateUpdate os fmu clocksTicked st).2) ∧
      (clocksTicked = true →
        (checkOutputClocks fmu st).2.outputClocks OutClock_1 = fmi3ClockInactive →
        (checkOutputClocks fmu st).2.outputClocks OutClock_2 = fmi3ClockActive →
          threadCreations (emitted st (cb_intermediateUpdate os fmu clocksTicked st).2) = [] ∧
            Event.logEvent (LogMsg.outputClock2 st.time) ∈
              emitted st (cb_intermediateUpdate os fmu clocksTicked st).2) ∧
      ((checkOutputClocks fmu st).2.outputClocks OutClock_1 = fmi3ClockInactive →
        (checkOutputClocks fmu st).2.outputClocks OutClock_2 = fmi3ClockInactive →
          threadCreations (emitted st (cb_intermediateUpdate os fmu clocksTicked st).2) = []) ∧
      (clocksTicked = false →
        emitted st (cb_intermediateUpdate os fmu clocksTicked st).2 =
          [Event.logEvent LogMsg.noClockActive]) := by
  rw [checkOutputClocks_eq]
  dsimp only
  refine ⟨?_, ?_, ?_, ?_, ?_, ?_⟩
  · cases clocksTicked
    · rfl
    · cases h1 : reportedClocks fmu OutClock_1
      · cases h2 : reportedClocks fmu OutClock_2
        · exact (cb_not_ticked_or_none os fmu true st (Or.inr ⟨h1, h2⟩)).1
        · exact (cb_general os fmu st (Or.inr h2)).1
      · exact (cb_general os fmu st (Or.inl h1)).1
  · intro hc h1 hb
    subst hc
    obtain ⟨_, _, _, _, tr⟩ := cb_general os fmu st (Or.inl h1)
    rw [emitted_of_trace tr, h1, hb]
    cases reportedClocks fmu OutClock_2 <;>
      simp [dispatched, dispatchOf, threadCreations, creationOf, priorities, priorityOf, cbRequest]
  · intro hc h1 hb
    subst hc
    obtain ⟨_, _, _, _, tr⟩ := cb_general os fmu st (Or.inl h1)
    rw [emitted_of_trace tr, h1, hb]
    cases reportedClocks fmu OutClock_2 <;>
      simp [dispatched, dispatchOf, threadCreations, creationOf, priorities, priorityOf, cbRequest]
  · intro hc h1 h2
    subst hc
    obtain ⟨_, _, _, _, tr⟩ := cb_general os fmu st (Or.inr h2)
    rw [emitted_of_trace tr, h1, h2]
    simp [threadCreations, creationOf]
  · intro h1 h2
    exact (cb_not_ticked_or_none os fmu clocksTicked st (Or.inr ⟨h1, h2⟩)).2.2.2.1
  · intro hc
    subst hc
    rw [cb_not_ticked]
    simp [emitted]

theorem C3_witness :
    dispatched (emitted State.init (cb_intermediateUpdate okOS okFMU true State.init).2) =
        [⟨vr_InClock_3, RetvalPtr.cb_returnval, State.init.time⟩] ∧
      threadCreations (emitted State.init (cb_intermediateUpdate okOS okFMU true State.init).2) =
        [(cbRequest State.init, true)] ∧
      priorities (emitted State.init (cb_intermediateUpdate okOS okFMU true State.init).2) =
        [inputClockPrio InClock_3] :=
  (C3_callback_dispatches_InClock_3_for_OutClock_1 okOS okFMU true State.init).2.1 rfl
    (by decide) rfl

/-- C3 fails as stated, twice.  The collaborator `okFMU` reports OutClock_1 as
Active.  When the thread cannot be created, the invocation with `clocksTicked`
set dispatches no request and sets no priority; and the invocation with
`clocksTicked` not set dispatches no request either, although thread creation
would succeed. -/
theorem C3_counterexample :
    (checkOutputClocks okFMU State.init).2.outputClocks OutClock_1 = fmi3ClockActive ∧
      dispatched (emitted State.init (cb_intermediateUpdate noThreadOS okFMU true State.init).2) =
        [] ∧
      priorities (emitted State.init (cb_intermediateUpdate noThreadOS okFMU true State.init).2) =
        [] ∧
      dispatched (emitted State.init (cb_intermediateUpdate okOS okFMU false State.init).2) =
        [] := by
  decide

/-! ## Shutdown and the whole of `main` -/

theorem mainOut_fatal (fmu : Collaborator) (s : Bool) (st : State)
    (h : st.status = fmi3Fatal) :
    mainOut fmu s st =
      (EXIT_FAILURE,
        { st with trace := st.trace ++
            [Event.GlobalFree, Event.fclose InClock_1, Event.fclose InClock_2,
              Event.fclose InClock_3, Event.logEvent LogMsg.finished] }) := by
  simp [mainOut, h, State.emit]

theorem mainOut_general (fmu : Collaborator) (s : Bool) (st : State) :
    (mainOut fmu s st).1 = (if st.status = fmi3OK then EXIT_SUCCESS else EXIT_FAILURE) ∧
      (mainOut fmu s st).2.status = st.status ∧
      ∃ em, (mainOut fmu s st).2.trace = st.trace ++ em ∧ threadCreations em = [] := by
  unfold mainOut
  simp only [State.emit]
  split_ifs <;>
    exact ⟨by simp_all, rfl, _, by simp only [List.append_assoc]; rfl, by
      simp [threadCreations, creationOf]⟩

theorem initializeOutputFiles_general (os : OS) :
    ∀ (l : List (Fin N_INPUT_CLOCKS)) (st : State),
      (initializeOutputFiles os l st).2.time = st.time ∧
        (initializeOutputFiles os l st).2.inputClocks = st.inputClocks ∧
        ∃ em, (initializeOutputFiles os l st).2.trace = st.trace ++ em ∧
          threadCreations em = [] := by
  intro l
  induction l with
  | nil =>
    intro st
    refine ⟨rfl, rfl, ?_⟩
    simp only [initializeOutputFiles, State.emit, List.append_assoc]
    exact ⟨_, rfl, by simp [threadCreations, creationOf]⟩
  | cons part rest ih =>
    intro st
    cases h : os.fopen part
    · refine ⟨?_, ?_, [Event.fopen part false, Event.fputs none "Failed to open output file."],
        ?_, ?_⟩ <;>
        simp [initializeOutputFiles, h, State.emit, threadCreations, creationOf]
    · obtain ⟨i1, i2, em, i3, i4⟩ := ih (st.emit (Event.fopen part true))
      refine ⟨?_, ?_, Event.fopen part true :: em, ?_, ?_⟩
      · simp only [initializeOutputFiles, h]
        exact i1
      · simp only [initializeOutputFiles, h]
        exact i2
      · simp only [initializeOutputFiles, h]
        rw [show (if (!true) = true then _ else _) = _ from if_neg (by decide)] at *
        rw [i3]
        simp [State.emit]
      · simp only [threadCreations, List.filterMap_cons, creationOf]
        exact i4

theorem main_shape (os : OS) (fmu : Collaborator) (fuel : Nat) :
    (∃ s st, main os fmu fuel = some (mainOut fmu s st) ∧ st.status ≠ fmi3OK ∧
        threadCreations st.trace = []) ∨
      (∃ st0, st0.time = START_TIME ∧ st0.inputClocks = (fun _ => fmi3ClockInactive) ∧
        st0.status = fmi3OK ∧ threadCreations st0.trace = [] ∧
        main os fmu fuel = (whileLoop os fuel st0).map (fun r => mainOut fmu true r.2)) := by
  unfold main
  obtain ⟨f1, f2, em, f3, f4⟩ :=
    initializeOutputFiles_general os clockIndices (State.init.emit (Event.logEvent LogMsg.running))
  dsimp only
  generalize initializeOutputFiles os clockIndices
    (State.init.emit (Event.logEvent LogMsg.running)) = r0 at f1 f2 f3 ⊢
  have g3 : threadCreations r0.2.trace = [] := by
    rw [f3, threadCreations_append, f4]
    rfl
  have one : ∀ (tr : List Event) (e : Event), threadCreations tr = [] → creationOf e = none →
      threadCreations (tr ++ [e]) = [] := by
    intro tr e h1 h2
    rw [threadCreations_append, h1]
    simp [threadCreations, h2]
  cases h1 : fmu.fmi3Instantiate
  · left
    exact ⟨false, _, rfl, by simp, rfl⟩
  · cases h2 : os.GlobalAlloc
    · left
      exact ⟨true, _, rfl, by simp [State.emit], rfl⟩
    · simp only [Bool.not_true, Bool.false_eq_true, if_false, State.emit]
      by_cases h3 : r0.1 = fmi3OK
      swap
      · left
        rw [if_pos h3]
        exact ⟨true, _, rfl, h3, g3⟩
      · rw [if_neg (not_not.mpr h3)]
        by_cases h4 : fmu.fmi3SetupExperiment = fmi3OK
        swap
        · left
          rw [if_pos h4]
          exact ⟨true, _, rfl, h4, one _ _ g3 rfl⟩
        · rw [if_neg (not_not.mpr h4)]
          by_cases h5 : fmu.fmi3EnterInitializationMode = fmi3OK
          swap
          · left
            rw [if_pos h5]
            exact ⟨true, _, rfl, h5, one _ _ (one _ _ g3 rfl) rfl⟩
          · rw [if_neg (not_not.mpr h5)]
            by_cases h6 : (fmu.fmi3GetClock vrOutputClocks
                [r0.2.outputClocks OutClock_1, r0.2.outputClocks OutClock_2]).1 = fmi3OK
            swap
            · left
              rw [if_pos h6]
              exact ⟨true, _, rfl, h6, one _ _ (one _ _ (one _ _ g3 rfl) rfl) rfl⟩
            · right
              rw [if_neg (not_not.mpr h6)]
              refine ⟨_, ?_, ?_, ?_, ?_, rfl⟩
              · exact f1
              · exact f2
              · exact h6
              · exact one _ _ (one _ _ (one _ _ (one _ _ g3 rfl) rfl) rfl) rfl

theorem cb_leaves_run_state (os : OS) (fmu : Collaborator) (clocksTicked : Bool) (st : State) :
    (cb_intermediateUpdate os fmu clocksTicked st).1 = fmi3OK ∧
      (cb_intermediateUpdate os fmu clocksTicked st).2.status = st.status ∧
      (cb_intermediateUpdate os fmu clocksTicked st).2.inputClocks = st.inputClocks ∧
      threadCreations (emitted st (cb_intermediateUpdate os fmu clocksTicked st).2) =
        (if clocksTicked = true ∧ reportedClocks fmu OutClock_1 = fmi3ClockActive then
          [(cbRequest st, os.beginthreadex (cbRequest st))]
        else []) ∧
      ((∃ a, (a, false) ∈
          threadCreations (emitted st (cb_intermediateUpdate os fmu clocksTicked st).2)) →
        Event.logEvent LogMsg.noThreadInCallback ∈
          emitted st (cb_intermediateUpdate os fmu clocksTicked st).2) := by
  cases clocksTicked
  · obtain ⟨k1, k2, k3, k4, _⟩ := cb_not_ticked_or_none os fmu false st (Or.inl rfl)
    refine ⟨k1, k2, k3, ?_, ?_⟩
    · rw [k4]
      simp
    · rw [k4]
      simp
  · cases h1 : reportedClocks fmu OutClock_1
    · cases h2 : reportedClocks fmu OutClock_2
      · obtain ⟨k1, k2, k3, k4, _⟩ := cb_not_ticked_or_none os fmu true st (Or.inr ⟨h1, h2⟩)
        refine ⟨k1, k2, k3, ?_, ?_⟩
        · rw [k4]
          simp
        · rw [k4]
          simp
      · obtain ⟨k1, k2, _, k3, tr⟩ := cb_general os fmu st (Or.inr h2)
        refine ⟨k1, k2, k3, ?_, ?_⟩
        · rw [emitted_of_trace tr, h1, h2]
          simp [threadCreations, creationOf]
        · rw [emitted_of_trace tr, h1, h2]
          simp [threadCreations, creationOf]
    · obtain ⟨k1, k2, _, k3, tr⟩ := cb_general os fmu st (Or.inl h1)
      refine ⟨k1, k2, k3, ?_, ?_⟩
      · rw [emitted_of_trace tr, h1]
        cases hb : os.beginthreadex (cbRequest st) <;>
          cases reportedClocks fmu OutClock_2 <;>
          simp [threadCreations, creationOf]
      · rw [emitted_of_trace tr, h1]
        cases hb : os.beginthreadex (cbRequest st) <;>
          cases reportedClocks fmu OutClock_2 <;>
          simp [threadCreations, creationOf]

/-- C10: `setAndCheckInputClocks` leaves InClock_3 as it finds it, at every
time and from every state.  Hence the tick loop, entered with InClock_3
Inactive and given enough fuel, returns without a single thread creation
(attempted or successful) for InClock_3 and with InClock_3 still Inactive, and
so does the whole of `main`, which starts from the all-Inactive initial state.
`cb_intermediateUpdate` does not touch the input clocks either; it attempts a
thread creation exactly when `clocksTicked` is set and the collaborator
reports OutClock_1 as Active, and then the request is for InClock_3. -/
theorem C10_InClock_3_is_started_by_the_callback_only (time : Int) (st0 : State) (os : OS)
    (fmu : Collaborator) (clocksTicked : Bool) (fuel : Nat) (st : State)
    (h3 : st.inputClocks InClock_3 = fmi3ClockInactive)
    (hfuel : stopTime - st.time ≤ (fuel : Int))
    (hmain : STOP_TIME - START_TIME ≤ (fuel : Int)) :
    (setAndCheckInputClocks time st0).2.inputClocks InClock_3 = st0.inputClocks InClock_3 ∧
      (∃ c st', whileLoop os fuel st = some (c, st') ∧
        st'.inputClocks InClock_3 = fmi3ClockInactive ∧
        ∀ cr ∈ threadCreations (emitted st st'), cr.1.clockRef ≠ vr_InClock_3) ∧
      (∃ code st', main os fmu fuel = some (code, st') ∧
        ∀ cr ∈ threadCreations st'.trace, cr.1.clockRef ≠ vr_InClock_3) ∧
      (cb_intermediateUpdate os fmu clocksTicked st0).2.inputClocks = st0.inputClocks ∧
      threadCreations (emitted st0 (cb_intermediateUpdate os fmu clocksTicked st0).2) =
        (if clocksTicked = true ∧
            (checkOutputClocks fmu st0).2.outputClocks OutClock_1 = fmi3ClockActive then
          [((⟨vr_InClock_3, RetvalPtr.cb_returnval, st0.time⟩ : ThreadArgs),
            os.beginthreadex ⟨vr_InClock_3, RetvalPtr.cb_returnval, st0.time⟩)]
        else []) := by
  refine ⟨?_, ?_, ?_, ?_, ?_⟩
  · rw [setAndCheckInputClocks_eq]
    show Function.update (Function.update st0.inputClocks InClock_1 fmi3ClockActive) InClock_2
      (inClock2At time) InClock_3 = st0.inputClocks InClock_3
    rw [Function.update_noteq (by decide), Function.update_noteq (by decide)]
  · obtain ⟨c, st', hw⟩ := whileLoop_returns os fuel st fuel hfuel (le_refl _)
    obtain ⟨em, tr, g2, _, _⟩ := whileLoop_general os fuel st c st' hw
    obtain ⟨k1, k2⟩ := g2 h3
    exact ⟨c, st', hw, k1, by rw [emitted_of_trace tr]; exact k2⟩
  · rcases main_shape os fmu fuel with ⟨s, stf, hm, _, hc⟩ | ⟨se, t0, c0, _, hc, hm⟩
    · obtain ⟨_, _, emo, tro, hco⟩ := mainOut_general fmu s stf
      refine ⟨(mainOut fmu s stf).1, (mainOut fmu s stf).2, hm, ?_⟩
      intro cr hcr
      rw [tro, threadCreations_append, hc, hco] at hcr
      simp at hcr
    · have hf : stopTime - se.time ≤ (fuel : Int) := by
        rw [t0]
        exact hmain
      obtain ⟨c, st', hw⟩ := whileLoop_returns os fuel se fuel hf (le_refl _)
      obtain ⟨em, tr, g2, _, _⟩ := whileLoop_general os fuel se c st' hw
      obtain ⟨_, k2⟩ := g2 (by rw [c0])
      obtain ⟨_, _, emo, tro, hco⟩ := mainOut_general fmu true st'
      refine ⟨(mainOut fmu true st').1, (mainOut fmu true st').2, ?_, ?_⟩
      · rw [hm, hw]
        rfl
      · intro cr hcr
        rw [tro, tr, threadCreations_append, threadCreations_append, hc, hco] at hcr
        simp only [List.nil_append, List.append_nil] at hcr
        exact k2 cr hcr
  · exact (cb_leaves_run_state os fmu clocksTicked st0).2.2.1
  · rw [checkOutputClocks_eq]
    exact (cb_leaves_run_state os fmu clocksTicked st0).2.2.2.1

theorem C10_witness :
    (setAndCheckInputClocks 8 State.init).2.inputClocks InClock_3 =
        State.init.inputClocks InClock_3 ∧
      (∃ c st', whileLoop noThread3OS 10 State.init = some (c, st') ∧
        st'.inputClocks InClock_3 = fmi3ClockInactive ∧
        ∀ cr ∈ threadCreations (emitted State.init st'), cr.1.clockRef ≠ vr_InClock_3) ∧
      (∃ code st', main noThread3OS okFMU 10 = some (code, st') ∧
        ∀ cr ∈ threadCreations st'.trace, cr.1.clockRef ≠ vr_InClock_3) ∧
      (cb_intermediateUpdate noThread3OS okFMU true State.init).2.inputClocks =
        State.init.inputClocks ∧
      threadCreations (emitted State.init
          (cb_intermediateUpdate noThread3OS okFMU true State.init).2) =
        (if true = true ∧
            (checkOutputClocks okFMU State.init).2.outputClocks OutClock_1 = fmi3ClockActive then
          [((⟨vr_InClock_3, RetvalPtr.cb_returnval, State.init.time⟩ : ThreadArgs),
            noThread3OS.beginthreadex ⟨vr_InClock_3, RetvalPtr.cb_returnval, State.init.time⟩)]
        else []) :=
  C10_InClock_3_is_started_by_the_callback_only 8 State.init noThread3OS okFMU true 10 State.init
    rfl (by decide) (by decide)

/-- C6 (as amended).  In the tick loop of `main` (run with enough fuel, so
that it returns): a thread creation fails exactly when the loop is left by
`goto out`; then the status is `fmi3Fatal`, the loop has stopped before the
stop time, the failed creation and its log line are the last things the loop
did and every creation before it succeeded, and the shutdown part skips
`fmi3Terminate` and `fmi3FreeInstance` and gives `EXIT_FAILURE`.  The same
holds for the whole of `main`: if its trace holds a failed thread creation,
`main` returns `EXIT_FAILURE` with status `fmi3Fatal`, and after the failed
creation only its log line and the shutdown events follow.  In
`cb_intermediateUpdate` a failed thread creation is only logged: the callback
returns `fmi3OK` and leaves the status of the run as it was. -/
theorem C6_thread_creation_failure_is_fatal_in_main_only (os : OS) (fmu : Collaborator)
    (fuel : Nat) (st : State) (clocksTicked : Bool) (stc : State)
    (hfuel : stopTime - st.time ≤ (fuel : Int))
    (hmain : STOP_TIME - START_TIME ≤ (fuel : Int)) :
    (∃ c st', whileLoop os fuel st = some (c, st') ∧
        ((∃ a, (a, false) ∈ threadCreations (emitted st st')) ↔ c = Ctl.out) ∧
        (c = Ctl.out →
          st'.status = fmi3Fatal ∧ st'.time < stopTime ∧
            (∃ pre a, emitted st st' = pre ++
                [Event.beginthreadex a false, Event.logEvent LogMsg.noThreadInMainLoop] ∧
              ∀ cr ∈ threadCreations pre, cr.2 = true) ∧
            (mainOut fmu true st').1 = EXIT_FAILURE ∧
            emitted st' (mainOut fmu true st').2 = fatalShutdownEvents)) ∧
      (∃ code st', main os fmu fuel = some (code, st') ∧
        ((∃ a, (a, false) ∈ threadCreations st'.trace) →
          code = EXIT_FAILURE ∧ st'.status = fmi3Fatal ∧
            ∃ pre a, st'.trace = pre ++
                ([Event.beginthreadex a false, Event.logEvent LogMsg.noThreadInMainLoop] ++
                  fatalShutdownEvents) ∧
              ∀ cr ∈ threadCreations pre, cr.2 = true)) ∧
      ((cb_intermediateUpdate os fmu clocksTicked stc).1 = fmi3OK ∧
        (cb_intermediateUpdate os fmu clocksTicked stc).2.status = stc.status ∧
        ((∃ a, (a, false) ∈
            threadCreations (emitted stc (cb_intermediateUpdate os fmu clocksTicked stc).2)) →
          Event.logEvent LogMsg.noThreadInCallback ∈
            emitted stc (cb_intermediateUpdate os fmu clocksTicked stc).2)) := by
  have loop : ∀ (s0 : State), stopTime - s0.time ≤ (fuel : Int) →
      ∃ c st' em, whileLoop os fuel s0 = some (c, st') ∧ st'.trace = s0.trace ++ em ∧
        ((∃ a, (a, false) ∈ threadCreations em) ↔ c = Ctl.out) ∧
        (c = Ctl.out →
          st'.status = fmi3Fatal ∧ st'.time < stopTime ∧
            (∃ pre a, em = pre ++
                [Event.beginthreadex a false, Event.logEvent LogMsg.noThreadInMainLoop] ∧
              ∀ cr ∈ threadCreations pre, cr.2 = true)) := by
    intro s0 hf
    obtain ⟨c, st', hw⟩ := whileLoop_returns os fuel s0 fuel hf (le_refl _)
    obtain ⟨em, tr, _, g3, g4⟩ := whileLoop_general os fuel s0 c st' hw
    refine ⟨c, st', em, hw, tr, ⟨?_, ?_⟩, g4⟩
    · rintro ⟨a, ha⟩
      cases c
      · have := (g3 rfl).2.2 (a, false) ha
        simp at this
      · rfl
    · intro hc
      obtain ⟨_, _, pre, a, hem, _⟩ := g4 hc
      refine ⟨a, ?_⟩
      rw [hem, threadCreations_append]
      simp [threadCreations, creationOf]
  refine ⟨?_, ?_, ?_⟩
  · obtain ⟨c, st', em, hw, tr, hiff, hout⟩ := loop st hfuel
    refine ⟨c, st', hw, by rw [emitted_of_trace tr]; exact hiff, ?_⟩
    intro hc
    obtain ⟨k1, k2, k3⟩ := hout hc
    refine ⟨k1, k2, by rw [emitted_of_trace tr]; exact k3, ?_, ?_⟩
    · rw [mainOut_fatal fmu true st' k1]
    · rw [mainOut_fatal fmu true st' k1]
      exact emitted_of_trace rfl
  · rcases main_shape os fmu fuel with ⟨s, stf, hm, _, hc⟩ | ⟨se, t0, _, _, hc, hm⟩
    · obtain ⟨_, _, emo, tro, hco⟩ := mainOut_general fmu s stf
      refine ⟨(mainOut fmu s stf).1, (mainOut fmu s stf).2, hm, ?_⟩
      rintro ⟨a, ha⟩
      rw [tro, threadCreations_append, hc, hco] at ha
      simp at ha
    · have hf : stopTime - se.time ≤ (fuel : Int) := by
        rw [t0]
        exact hmain
      obtain ⟨c, st', em, hw, tr, hiff, hout⟩ := loop se hf
      obtain ⟨_, _, emo, tro, hco⟩ := mainOut_general fmu true st'
      refine ⟨(mainOut fmu true st').1, (mainOut fmu true st').2, ?_, ?_⟩
      · rw [hm, hw]
        rfl
      · rintro ⟨a, ha⟩
        rw [tro, tr, threadCreations_append, threadCreations_append, hc, hco] at ha
        simp only [List.nil_append, List.append_nil] at ha
        have hc' : c = Ctl.out := hiff.mp ⟨a, ha⟩
        obtain ⟨k1, _, pre, b, k3, k4⟩ := hout hc'
        rw [mainOut_fatal fmu true st' k1]
        refine ⟨rfl, k1, se.trace ++ pre, b, ?_, ?_⟩
        · show st'.trace ++ fatalShutdownEvents = _
          rw [tr, k3]
          simp only [List.append_assoc]
        · intro cr hcr
          rw [threadCreations_append, hc] at hcr
          exact k4 cr hcr
  · obtain ⟨k1, k2, _, _, k5⟩ := cb_leaves_run_state os fmu clocksTicked stc
    exact ⟨k1, k2, k5⟩

theorem C6_witness :
    (∃ c st', whileLoop noThreadOS 10 State.init = some (c, st') ∧
        ((∃ a, (a, false) ∈ threadCreations (emitted State.init st')) ↔ c = Ctl.out) ∧
        (c = Ctl.out →
          st'.status = fmi3Fatal ∧ st'.time < stopTime ∧
            (∃ pre a, emitted State.init st' = pre ++
                [Event.beginthreadex a false, Event.logEvent LogMsg.noThreadInMainLoop] ∧
              ∀ cr ∈ threadCreations pre, cr.2 = true) ∧
            (mainOut okFMU true st').1 = EXIT_FAILURE ∧
            emitted st' (mainOut okFMU true st').2 = fatalShutdownEvents)) ∧
      (∃ code st', main noThreadOS okFMU 10 = some (code, st') ∧
        ((∃ a, (a, false) ∈ threadCreations st'.trace) →
          code = EXIT_FAILURE ∧ st'.status = fmi3Fatal ∧
            ∃ pre a, st'.trace = pre ++
                ([Event.beginthreadex a false, Event.logEvent LogMsg.noThreadInMainLoop] ++
                  fatalShutdownEvents) ∧
              ∀ cr ∈ threadCreations pre, cr.2 = true)) ∧
      ((cb_intermediateUpdate noThreadOS okFMU true State.init).1 = fmi3OK ∧
        (cb_intermediateUpdate noThreadOS okFMU true State.init).2.status = State.init.status ∧
        ((∃ a, (a, false) ∈
            threadCreations (emitted State.init
              (cb_intermediateUpdate noThreadOS okFMU true State.init).2)) →
          Event.logEvent LogMsg.noThreadInCallback ∈
            emitted State.init (cb_intermediateUpdate noThreadOS okFMU true State.init).2)) :=
  C6_thread_creation_failure_is_fatal_in_main_only noThreadOS okFMU 10 State.init true State.init
    (by decide) (by decide)

/-- C6 fails as stated for the callback.  On `noThread3OS` the first pass of
the tick loop starts its threads; then `cb_intermediateUpdate` runs (OutClock_1
reported Active) and its thread creation for InClock_3 fails: the callback
returns `fmi3OK` and the status is not `fmi3Fatal`.  The tick loop goes on from
there through the remaining 9 ticks, dispatches 12 more requests, leaves
normally with status `fmi3OK`, and the shutdown gives `EXIT_SUCCESS`. -/
theorem C6_counterexample :
    threadCreations (emitted (whileBody noThread3OS State.init).2
        (cb_intermediateUpdate noThread3OS okFMU true (whileBody noThread3OS State.init).2).2) =
        [(cbRequest (whileBody noThread3OS State.init).2, false)] ∧
      (cb_intermediateUpdate noThread3OS okFMU true (whileBody noThread3OS State.init).2).1 =
        fmi3OK ∧
      (cb_intermediateUpdate noThread3OS okFMU true (whileBody noThread3OS State.init).2).2.status ≠
        fmi3Fatal ∧
      ∃ st', whileLoop noThread3OS 9
          (cb_intermediateUpdate noThread3OS okFMU true (whileBody noThread3OS State.init).2).2 =
          some (Ctl.next, st') ∧
        (dispatched (emitted
          (cb_intermediateUpdate noThread3OS okFMU true (whileBody noThread3OS State.init).2).2
          st')).length = 12 ∧
        st'.status = fmi3OK ∧
        (mainOut okFMU true st').1 = EXIT_SUCCESS := by
  refine ⟨by decide, by decide, by decide, _, rfl, ?_, ?_, ?_⟩
  · decide
  · decide
  · decide

end CsClocked
